import Mathlib

set_option maxRecDepth 1000000
set_option maxHeartbeats 8000000

/-!
Verification of a two-spin NMR superoperator construction and of a rank-2
Wigner rotation matrix.

The superoperator pipeline works over exact complex rationals: the script's
floating-point complex numbers are modelled by the type CQ of complex numbers
with rational real and imaginary parts, each rational being an integer
fraction kept in lowest terms.  All matrix and vector code is a direct
transcription of the script; matrices are curried functions out of Fin types.

The Wigner rotation matrix is modelled over the real and complex numbers with
the trigonometric functions of Mathlib.
-/

/- An exact rational as an integer fraction num/den. -/
structure Q2 where
  num : ℤ
  den : ℤ
deriving DecidableEq

/- Force an integer to a literal before passing it on, so that reduction
inside the kernel proceeds call-by-value and each intermediate integer is
computed once. -/
def iforce {a : Type} (x : ℤ) (k : ℤ → a) : a :=
  match x with
  | .ofNat n => k (.ofNat n)
  | .negSucc n => k (.negSucc n)

/- Euclid with explicit structural fuel, so that the kernel can evaluate it. -/
def gcdF : ℕ → ℕ → ℕ → ℕ
  | 0, _, n => n
  | _+1, 0, n => n
  | f+1, m+1, n => gcdF f (n % (m+1)) (m+1)

/- Build the fraction n/d in lowest terms (d assumed nonnegative). -/
def Q2.mkp (n d : ℤ) : Q2 :=
  match gcdF n.natAbs n.natAbs d.natAbs with
  | 0 => ⟨n, d⟩
  | g+1 => iforce (n / ((g+1 : ℕ) : ℤ)) fun n2 => iforce (d / ((g+1 : ℕ) : ℤ)) fun d2 => ⟨n2, d2⟩

/- Build the fraction n/d in lowest terms with nonnegative denominator. -/
def Q2.mkn (n d : ℤ) : Q2 :=
  if d < 0 then Q2.mkp (-n) (-d) else Q2.mkp n d

/- (a/b) + (c/d), in lowest terms. -/
def Q2.addn (a b c d : ℤ) : Q2 :=
  iforce (a * d + c * b) fun n => iforce (b * d) fun dd => Q2.mkn n dd

/- (a/b) * (c/d), in lowest terms. -/
def Q2.muln (a b c d : ℤ) : Q2 :=
  iforce (a * c) fun n => iforce (b * d) fun dd => Q2.mkn n dd

def Q2.add : Q2 → Q2 → Q2
  | ⟨a, b⟩, ⟨c, d⟩ => Q2.addn a b c d

def Q2.mul : Q2 → Q2 → Q2
  | ⟨a, b⟩, ⟨c, d⟩ => Q2.muln a b c d

def Q2.neg : Q2 → Q2
  | ⟨a, b⟩ => iforce (-a) fun n => ⟨n, b⟩

def Q2.sub : Q2 → Q2 → Q2
  | ⟨a, b⟩, ⟨c, d⟩ => Q2.addn a b (-c) d

def Q2.inv : Q2 → Q2
  | ⟨a, b⟩ => Q2.mkn b a

def Q2.div : Q2 → Q2 → Q2
  | ⟨a, b⟩, ⟨c, d⟩ => Q2.muln a b d c

/- The rational value denoted by a fraction (division by zero yields 0,
matching the rational-number convention). -/
def Q2.val (a : Q2) : ℚ := (a.num : ℚ) / (a.den : ℚ)

/- A complex number with exact rational real and imaginary parts. -/
structure CQ where
  re : Q2
  im : Q2
deriving DecidableEq

/- Complex addition, componentwise on fractions, every component forced to a
literal before being packed. -/
def CQ.addc : CQ → CQ → CQ
  | ⟨⟨a, b⟩, ⟨c, d⟩⟩, ⟨⟨e, f⟩, ⟨g, h⟩⟩ =>
    iforce a fun a => iforce b fun b => iforce c fun c => iforce d fun d =>
    iforce e fun e => iforce f fun f => iforce g fun g => iforce h fun h =>
      ⟨Q2.addn a b e f, Q2.addn c d g h⟩

def CQ.subc : CQ → CQ → CQ
  | ⟨⟨a, b⟩, ⟨c, d⟩⟩, ⟨⟨e, f⟩, ⟨g, h⟩⟩ =>
    iforce a fun a => iforce b fun b => iforce c fun c => iforce d fun d =>
    iforce e fun e => iforce f fun f => iforce g fun g => iforce h fun h =>
      ⟨Q2.addn a b (-e) f, Q2.addn c d (-g) h⟩

/- (a+ci)(e+gi) = (ae - cg) + (ag + ce)i, componentwise on fractions. -/
def CQ.mulc : CQ → CQ → CQ
  | ⟨⟨a, b⟩, ⟨c, d⟩⟩, ⟨⟨e, f⟩, ⟨g, h⟩⟩ =>
    iforce a fun a => iforce b fun b => iforce c fun c => iforce d fun d =>
    iforce e fun e => iforce f fun f => iforce g fun g => iforce h fun h =>
      ⟨(Q2.muln a b e f).sub (Q2.muln c d g h),
       (Q2.muln a b g h).add (Q2.muln c d e f)⟩

def CQ.negc : CQ → CQ
  | ⟨⟨a, b⟩, ⟨c, d⟩⟩ =>
    iforce (-a) fun a2 => iforce b fun b2 => iforce (-c) fun c2 => iforce d fun d2 =>
      ⟨⟨a2, b2⟩, ⟨c2, d2⟩⟩

instance : Zero CQ := ⟨⟨⟨0, 1⟩, ⟨0, 1⟩⟩⟩
instance : One CQ := ⟨⟨⟨1, 1⟩, ⟨0, 1⟩⟩⟩
instance : Add CQ := ⟨CQ.addc⟩
instance : Neg CQ := ⟨CQ.negc⟩
instance : Sub CQ := ⟨CQ.subc⟩
instance : Mul CQ := ⟨CQ.mulc⟩

/- 1/z = conj z / (z * conj z), componentwise on fractions. -/
def CQ.cinv : CQ → CQ
  | ⟨⟨a, b⟩, ⟨c, d⟩⟩ =>
    iforce a fun a => iforce b fun b => iforce c fun c => iforce d fun d =>
      match (Q2.muln a b a b).add (Q2.muln c d c d) with
      | ⟨nn, dn⟩ =>
        iforce nn fun nn => iforce dn fun dn =>
          ⟨Q2.muln a b dn nn, Q2.muln (-c) d dn nn⟩

instance : Div CQ := ⟨fun a b => a * b.cinv⟩
instance (n : ℕ) : OfNat CQ n := ⟨⟨⟨(n : ℤ), 1⟩, ⟨0, 1⟩⟩⟩

/- The complex value denoted by an exact complex rational. -/
def CQ.val (z : CQ) : ℂ := ⟨(z.re.val : ℝ), (z.im.val : ℝ)⟩

/- The scalar 0.5 of the script. -/
def half : CQ := ⟨⟨1, 2⟩, ⟨0, 1⟩⟩

/- The scalar 0.5j of the script. -/
def halfI : CQ := ⟨⟨0, 1⟩, ⟨1, 2⟩⟩

/- Bounds used for the flat indexing of numpy.kron and numpy.flatten. -/
def fin4_div2 (r : Fin 4) : r.val / 2 < 2 := by have h := r.isLt; omega

def fin4_mod2 (r : Fin 4) : r.val % 2 < 2 := by have h := r.isLt; omega

def fin16_div4 (r : Fin 16) : r.val / 4 < 4 := by have h := r.isLt; omega

def fin16_mod4 (r : Fin 16) : r.val % 4 < 4 := by have h := r.isLt; omega

/- scalar * matrix, as numpy broadcasts it. -/
def sm {m n : ℕ} (c : CQ) (A : Fin m → Fin n → CQ) : Fin m → Fin n → CQ :=
  fun i j => c * A i j

/- Spin matrices for one spin 1/2, from section 1 of the script. -/
def uni : Fin 2 → Fin 2 → CQ := ![![1, 0], ![0, 1]]

def Ix : Fin 2 → Fin 2 → CQ := sm half ![![0, 1], ![1, 0]]

def Iy : Fin 2 → Fin 2 → CQ := sm halfI ![![0, -1], ![1, 0]]

def Iz : Fin 2 → Fin 2 → CQ := sm half ![![1, 0], ![0, -1]]

/- numpy.kron for 2x2 blocks: entry (r,c) is A[r/2, c/2] * B[r%2, c%2]. -/
def kron2 (A B : Fin 2 → Fin 2 → CQ) : Fin 4 → Fin 4 → CQ :=
  fun r c =>
    A ⟨r.val / 2, fin4_div2 r⟩ ⟨c.val / 2, fin4_div2 c⟩ *
      B ⟨r.val % 2, fin4_mod2 r⟩ ⟨c.val % 2, fin4_mod2 c⟩

/- numpy.kron for 4x4 blocks, generic in the scalars. -/
def kron4 {R : Type} [Mul R] (A B : Fin 4 → Fin 4 → R) : Fin 16 → Fin 16 → R :=
  fun r c =>
    A ⟨r.val / 4, fin16_div4 r⟩ ⟨c.val / 4, fin16_div4 c⟩ *
      B ⟨r.val % 4, fin16_mod4 r⟩ ⟨c.val % 4, fin16_mod4 c⟩

/- Product operators for two coupled spin 1/2 nuclei. -/
def E : Fin 4 → Fin 4 → CQ := kron2 uni uni

def pIz : Fin 4 → Fin 4 → CQ := kron2 Iz uni

def pSz : Fin 4 → Fin 4 → CQ := kron2 uni Iz

def pIzSz : Fin 4 → Fin 4 → CQ := sm 2 (kron2 Iz Iz)

def pIx : Fin 4 → Fin 4 → CQ := kron2 Ix uni

def pIy : Fin 4 → Fin 4 → CQ := kron2 Iy uni

def pIxSz : Fin 4 → Fin 4 → CQ := sm 2 (kron2 Ix Iz)

def pIySz : Fin 4 → Fin 4 → CQ := sm 2 (kron2 Iy Iz)

def pSx : Fin 4 → Fin 4 → CQ := kron2 uni Ix

def pSy : Fin 4 → Fin 4 → CQ := kron2 uni Iy

def pIzSx : Fin 4 → Fin 4 → CQ := sm 2 (kron2 Iz Ix)

def pIzSy : Fin 4 → Fin 4 → CQ := sm 2 (kron2 Iz Iy)

def pIxSx : Fin 4 → Fin 4 → CQ := sm 2 (kron2 Ix Ix)

def pIySy : Fin 4 → Fin 4 → CQ := sm 2 (kron2 Iy Iy)

def pIxSy : Fin 4 → Fin 4 → CQ := sm 2 (kron2 Ix Iy)

def pIySx : Fin 4 → Fin 4 → CQ := sm 2 (kron2 Iy Ix)

/- numpy.flatten in row-major order: entry k of the row vector is A[k/4, k%4]. -/
def flatten (A : Fin 4 → Fin 4 → CQ) : Fin 16 → CQ :=
  fun k => A ⟨k.val / 4, fin16_div4 k⟩ ⟨k.val % 4, fin16_mod4 k⟩

def vE := flatten E

def vIz := flatten pIz

def vSz := flatten pSz

def vIzSz := flatten pIzSz

def vIx := flatten pIx

def vIy := flatten pIy

def vIxSz := flatten pIxSz

def vIySz := flatten pIySz

def vSx := flatten pSx

def vSy := flatten pSy

def vIzSx := flatten pIzSx

def vIzSy := flatten pIzSy

def vIxSx := flatten pIxSx

def vIySy := flatten pIySy

def vIxSy := flatten pIxSy

def vIySx := flatten pIySx

/- The Hilbert space Hamiltonian of section 2 of the script. -/
def H : Fin 4 → Fin 4 → CQ :=
  sm 1 pIz + sm 2 pSz + sm 3 (pIxSx + pIySy + pIzSz) + sm 4 (pIx + pSx) + sm 5 (pIy + pSy)

/- Matrix transpose, generic in the scalars. -/
def mtrans {R : Type} {m n : ℕ} (A : Fin m → Fin n → R) : Fin n → Fin m → R :=
  fun i j => A j i

/- Entrywise matrix difference, generic in the scalars. -/
def msub {R : Type} [Sub R] {m n : ℕ} (A B : Fin m → Fin n → R) : Fin m → Fin n → R :=
  fun i j => A i j - B i j

/- The raw superoperator of the script: Hs = kron(H, E.T) - kron(E, H.T). -/
def Hs : Fin 16 → Fin 16 → CQ := msub (kron4 H (mtrans E)) (kron4 E (mtrans H))

/- The 4x4 identity matrix, generic in the scalars. -/
def idm4 {R : Type} [Zero R] [One R] : Fin 4 → Fin 4 → R :=
  fun i j => if i = j then 1 else 0

/- The raw commutator superoperator of a 4x4 matrix: the tensor product of A
with the transpose of the identity, minus the tensor product of the identity
with the transpose of A; over CQ and with A the Hamiltonian it computes Hs. -/
def toSuperoperator {R : Type} [Mul R] [Sub R] [Zero R] [One R]
    (A : Fin 4 → Fin 4 → R) : Fin 16 → Fin 16 → R :=
  msub (kron4 A (mtrans idm4)) (kron4 idm4 (mtrans A))

/- scalar * vector, as numpy broadcasts it. -/
def vsm (c : CQ) (v : Fin 16 → CQ) : Fin 16 → CQ := fun k => c * v k

/- The vector versions of the product operators, in the fixed order of the
script, with only the identity vector scaled by one half. -/
def vector_operators : Fin 16 → Fin 16 → CQ :=
  ![vsm half vE, vIx, vIy, vIz, vSx, vSy, vSz, vIxSz, vIySz,
    vIzSx, vIzSy, vIxSx, vIxSy, vIySx, vIySy, vIzSz]

/- Left-to-right sum of n complex values. -/
def sumFin : (n : ℕ) → (Fin n → CQ) → CQ
  | 0, _ => 0
  | n+1, f => sumFin n (fun i => f i.castSucc) + f (Fin.last n)

/- numpy.dot of two row vectors of length 16. -/
def dot (v w : Fin 16 → CQ) : CQ := sumFin 16 (fun i => v i * w i)

/- numpy.dot of a 16x16 matrix with a length-16 vector. -/
def matVec (A : Fin 16 → Fin 16 → CQ) (w : Fin 16 → CQ) : Fin 16 → CQ :=
  fun r => sumFin 16 (fun c => A r c * w c)

/- A single assignment Hsp[r,c] = v into a matrix. -/
def update (M : Fin 16 → Fin 16 → CQ) (r c : Fin 16) (v : CQ) :
    Fin 16 → Fin 16 → CQ :=
  fun i j => if i = r ∧ j = c then v else M i j

/- The projected superoperator of section 3 of the script: a zero matrix
filled entry by entry by the double loop
Hsp[r,c] = dot(rop, dot(Hs, cop.T)) / dot(rop, rop.T). -/
def Hsp : Fin 16 → Fin 16 → CQ :=
  (List.finRange 16).foldl
    (fun M r =>
      (List.finRange 16).foldl
        (fun M2 c =>
          update M2 r c
            (dot (vector_operators r) (matVec Hs (vector_operators c)) /
              dot (vector_operators r) (vector_operators r)))
        M)
    (fun _ _ => 0)

/- The sixteen product operators in the fixed order of the projection basis. -/
def prodOps : Fin 16 → Fin 4 → Fin 4 → CQ :=
  ![E, pIx, pIy, pIz, pSx, pSy, pSz, pIxSz, pIySz,
    pIzSx, pIzSy, pIxSx, pIxSy, pIySx, pIySy, pIzSz]

/- The trace inner product of two 4x4 matrices: the sum of the elementwise
products of the first matrix and the transpose of the second. -/
def traceInner (A B : Fin 4 → Fin 4 → CQ) : CQ :=
  sumFin 4 (fun i => sumFin 4 (fun j => A i j * mtrans B i j))

/-!
Literal tables.  Each table below lists, entry by entry, the exact complex
rational value (in canonical lowest-terms form) of one stage of the pipeline;
the theorems section proves each table equal to the corresponding computation.
-/

def HF : Fin 4 → Fin 4 → CQ :=
![![⟨⟨3,1⟩,⟨0,1⟩⟩, ⟨⟨2,1⟩,⟨-5,2⟩⟩, ⟨⟨2,1⟩,⟨-5,2⟩⟩, ⟨⟨0,1⟩,⟨0,1⟩⟩],
  ![⟨⟨2,1⟩,⟨5,2⟩⟩, ⟨⟨-2,1⟩,⟨0,1⟩⟩, ⟨⟨3,1⟩,⟨0,1⟩⟩, ⟨⟨2,1⟩,⟨-5,2⟩⟩],
  ![⟨⟨2,1⟩,⟨5,2⟩⟩, ⟨⟨3,1⟩,⟨0,1⟩⟩, ⟨⟨-1,1⟩,⟨0,1⟩⟩, ⟨⟨2,1⟩,⟨-5,2⟩⟩],
  ![⟨⟨0,1⟩,⟨0,1⟩⟩, ⟨⟨2,1⟩,⟨5,2⟩⟩, ⟨⟨2,1⟩,⟨5,2⟩⟩, ⟨⟨0,1⟩,⟨0,1⟩⟩]]

def EF : Fin 4 → Fin 4 → CQ :=
![![⟨⟨1,1⟩,⟨0,1⟩⟩, ⟨⟨0,1⟩,⟨0,1⟩⟩, ⟨⟨0,1⟩,⟨0,1⟩⟩, ⟨⟨0,1⟩,⟨0,1⟩⟩],
  ![⟨⟨0,1⟩,⟨0,1⟩⟩, ⟨⟨1,1⟩,⟨0,1⟩⟩, ⟨⟨0,1⟩,⟨0,1⟩⟩, ⟨⟨0,1⟩,⟨0,1⟩⟩],
  ![⟨⟨0,1⟩,⟨0,1⟩⟩, ⟨⟨0,1⟩,⟨0,1⟩⟩, ⟨⟨1,1⟩,⟨0,1⟩⟩, ⟨⟨0,1⟩,⟨0,1⟩⟩],
  ![⟨⟨0,1⟩,⟨0,1⟩⟩, ⟨⟨0,1⟩,⟨0,1⟩⟩, ⟨⟨0,1⟩,⟨0,1⟩⟩, ⟨⟨1,1⟩,⟨0,1⟩⟩]]

def HsF : Fin 16 → Fin 16 → CQ :=
![![⟨⟨0,1⟩,⟨0,1⟩⟩, ⟨⟨-2,1⟩,⟨-5,2⟩⟩, ⟨⟨-2,1⟩,⟨-5,2⟩⟩, ⟨⟨0,1⟩,⟨0,1⟩⟩, ⟨⟨2,1⟩,⟨-5,2⟩⟩, ⟨⟨0,1⟩,⟨0,1⟩⟩, ⟨⟨0,1⟩,⟨0,1⟩⟩, ⟨⟨0,1⟩,⟨0,1⟩⟩, ⟨⟨2,1⟩,⟨-5,2⟩⟩, ⟨⟨0,1⟩,⟨0,1⟩⟩, ⟨⟨0,1⟩,⟨0,1⟩⟩, ⟨⟨0,1⟩,⟨0,1⟩⟩, ⟨⟨0,1⟩,⟨0,1⟩⟩, ⟨⟨0,1⟩,⟨0,1⟩⟩, ⟨⟨0,1⟩,⟨0,1⟩⟩, ⟨⟨0,1⟩,⟨0,1⟩⟩],
  ![⟨⟨-2,1⟩,⟨5,2⟩⟩, ⟨⟨5,1⟩,⟨0,1⟩⟩, ⟨⟨-3,1⟩,⟨0,1⟩⟩, ⟨⟨-2,1⟩,⟨-5,2⟩⟩, ⟨⟨0,1⟩,⟨0,1⟩⟩, ⟨⟨2,1⟩,⟨-5,2⟩⟩, ⟨⟨0,1⟩,⟨0,1⟩⟩, ⟨⟨0,1⟩,⟨0,1⟩⟩, ⟨⟨0,1⟩,⟨0,1⟩⟩, ⟨⟨2,1⟩,⟨-5,2⟩⟩, ⟨⟨0,1⟩,⟨0,1⟩⟩, ⟨⟨0,1⟩,⟨0,1⟩⟩, ⟨⟨0,1⟩,⟨0,1⟩⟩, ⟨⟨0,1⟩,⟨0,1⟩⟩, ⟨⟨0,1⟩,⟨0,1⟩⟩, ⟨⟨0,1⟩,⟨0,1⟩⟩],
  ![⟨⟨-2,1⟩,⟨5,2⟩⟩, ⟨⟨-3,1⟩,⟨0,1⟩⟩, ⟨⟨4,1⟩,⟨0,1⟩⟩, ⟨⟨-2,1⟩,⟨-5,2⟩⟩, ⟨⟨0,1⟩,⟨0,1⟩⟩, ⟨⟨0,1⟩,⟨0,1⟩⟩, ⟨⟨2,1⟩,⟨-5,2⟩⟩, ⟨⟨0,1⟩,⟨0,1⟩⟩, ⟨⟨0,1⟩,⟨0,1⟩⟩, ⟨⟨0,1⟩,⟨0,1⟩⟩, ⟨⟨2,1⟩,⟨-5,2⟩⟩, ⟨⟨0,1⟩,⟨0,1⟩⟩, ⟨⟨0,1⟩,⟨0,1⟩⟩, ⟨⟨0,1⟩,⟨0,1⟩⟩, ⟨⟨0,1⟩,⟨0,1⟩⟩, ⟨⟨0,1⟩,⟨0,1⟩⟩],
  ![⟨⟨0,1⟩,⟨0,1⟩⟩, ⟨⟨-2,1⟩,⟨5,2⟩⟩, ⟨⟨-2,1⟩,⟨5,2⟩⟩, ⟨⟨3,1⟩,⟨0,1⟩⟩, ⟨⟨0,1⟩,⟨0,1⟩⟩, ⟨⟨0,1⟩,⟨0,1⟩⟩, ⟨⟨0,1⟩,⟨0,1⟩⟩, ⟨⟨2,1⟩,⟨-5,2⟩⟩, ⟨⟨0,1⟩,⟨0,1⟩⟩, ⟨⟨0,1⟩,⟨0,1⟩⟩, ⟨⟨0,1⟩,⟨0,1⟩⟩, ⟨⟨2,1⟩,⟨-5,2⟩⟩, ⟨⟨0,1⟩,⟨0,1⟩⟩, ⟨⟨0,1⟩,⟨0,1⟩⟩, ⟨⟨0,1⟩,⟨0,1⟩⟩, ⟨⟨0,1⟩,⟨0,1⟩⟩],
  ![⟨⟨2,1⟩,⟨5,2⟩⟩, ⟨⟨0,1⟩,⟨0,1⟩⟩, ⟨⟨0,1⟩,⟨0,1⟩⟩, ⟨⟨0,1⟩,⟨0,1⟩⟩, ⟨⟨-5,1⟩,⟨0,1⟩⟩, ⟨⟨-2,1⟩,⟨-5,2⟩⟩, ⟨⟨-2,1⟩,⟨-5,2⟩⟩, ⟨⟨0,1⟩,⟨0,1⟩⟩, ⟨⟨3,1⟩,⟨0,1⟩⟩, ⟨⟨0,1⟩,⟨0,1⟩⟩, ⟨⟨0,1⟩,⟨0,1⟩⟩, ⟨⟨0,1⟩,⟨0,1⟩⟩, ⟨⟨2,1⟩,⟨-5,2⟩⟩, ⟨⟨0,1⟩,⟨0,1⟩⟩, ⟨⟨0,1⟩,⟨0,1⟩⟩, ⟨⟨0,1⟩,⟨0,1⟩⟩],
  ![⟨⟨0,1⟩,⟨0,1⟩⟩, ⟨⟨2,1⟩,⟨5,2⟩⟩, ⟨⟨0,1⟩,⟨0,1⟩⟩, ⟨⟨0,1⟩,⟨0,1⟩⟩, ⟨⟨-2,1⟩,⟨5,2⟩⟩, ⟨⟨0,1⟩,⟨0,1⟩⟩, ⟨⟨-3,1⟩,⟨0,1⟩⟩, ⟨⟨-2,1⟩,⟨-5,2⟩⟩, ⟨⟨0,1⟩,⟨0,1⟩⟩, ⟨⟨3,1⟩,⟨0,1⟩⟩, ⟨⟨0,1⟩,⟨0,1⟩⟩, ⟨⟨0,1⟩,⟨0,1⟩⟩, ⟨⟨0,1⟩,⟨0,1⟩⟩, ⟨⟨2,1⟩,⟨-5,2⟩⟩, ⟨⟨0,1⟩,⟨0,1⟩⟩, ⟨⟨0,1⟩,⟨0,1⟩⟩],
  ![⟨⟨0,1⟩,⟨0,1⟩⟩, ⟨⟨0,1⟩,⟨0,1⟩⟩, ⟨⟨2,1⟩,⟨5,2⟩⟩, ⟨⟨0,1⟩,⟨0,1⟩⟩, ⟨⟨-2,1⟩,⟨5,2⟩⟩, ⟨⟨-3,1⟩,⟨0,1⟩⟩, ⟨⟨-1,1⟩,⟨0,1⟩⟩, ⟨⟨-2,1⟩,⟨-5,2⟩⟩, ⟨⟨0,1⟩,⟨0,1⟩⟩, ⟨⟨0,1⟩,⟨0,1⟩⟩, ⟨⟨3,1⟩,⟨0,1⟩⟩, ⟨⟨0,1⟩,⟨0,1⟩⟩, ⟨⟨0,1⟩,⟨0,1⟩⟩, ⟨⟨0,1⟩,⟨0,1⟩⟩, ⟨⟨2,1⟩,⟨-5,2⟩⟩, ⟨⟨0,1⟩,⟨0,1⟩⟩],
  ![⟨⟨0,1⟩,⟨0,1⟩⟩, ⟨⟨0,1⟩,⟨0,1⟩⟩, ⟨⟨0,1⟩,⟨0,1⟩⟩, ⟨⟨2,1⟩,⟨5,2⟩⟩, ⟨⟨0,1⟩,⟨0,1⟩⟩, ⟨⟨-2,1⟩,⟨5,2⟩⟩, ⟨⟨-2,1⟩,⟨5,2⟩⟩, ⟨⟨-2,1⟩,⟨0,1⟩⟩, ⟨⟨0,1⟩,⟨0,1⟩⟩, ⟨⟨0,1⟩,⟨0,1⟩⟩, ⟨⟨0,1⟩,⟨0,1⟩⟩, ⟨⟨3,1⟩,⟨0,1⟩⟩, ⟨⟨0,1⟩,⟨0,1⟩⟩, ⟨⟨0,1⟩,⟨0,1⟩⟩, ⟨⟨0,1⟩,⟨0,1⟩⟩, ⟨⟨2,1⟩,⟨-5,2⟩⟩],
  ![⟨⟨2,1⟩,⟨5,2⟩⟩, ⟨⟨0,1⟩,⟨0,1⟩⟩, ⟨⟨0,1⟩,⟨0,1⟩⟩, ⟨⟨0,1⟩,⟨0,1⟩⟩, ⟨⟨3,1⟩,⟨0,1⟩⟩, ⟨⟨0,1⟩,⟨0,1⟩⟩, ⟨⟨0,1⟩,⟨0,1⟩⟩, ⟨⟨0,1⟩,⟨0,1⟩⟩, ⟨⟨-4,1⟩,⟨0,1⟩⟩, ⟨⟨-2,1⟩,⟨-5,2⟩⟩, ⟨⟨-2,1⟩,⟨-5,2⟩⟩, ⟨⟨0,1⟩,⟨0,1⟩⟩, ⟨⟨2,1⟩,⟨-5,2⟩⟩, ⟨⟨0,1⟩,⟨0,1⟩⟩, ⟨⟨0,1⟩,⟨0,1⟩⟩, ⟨⟨0,1⟩,⟨0,1⟩⟩],
  ![⟨⟨0,1⟩,⟨0,1⟩⟩, ⟨⟨2,1⟩,⟨5,2⟩⟩, ⟨⟨0,1⟩,⟨0,1⟩⟩, ⟨⟨0,1⟩,⟨0,1⟩⟩, ⟨⟨0,1⟩,⟨0,1⟩⟩, ⟨⟨3,1⟩,⟨0,1⟩⟩, ⟨⟨0,1⟩,⟨0,1⟩⟩, ⟨⟨0,1⟩,⟨0,1⟩⟩, ⟨⟨-2,1⟩,⟨5,2⟩⟩, ⟨⟨1,1⟩,⟨0,1⟩⟩, ⟨⟨-3,1⟩,⟨0,1⟩⟩, ⟨⟨-2,1⟩,⟨-5,2⟩⟩, ⟨⟨0,1⟩,⟨0,1⟩⟩, ⟨⟨2,1⟩,⟨-5,2⟩⟩, ⟨⟨0,1⟩,⟨0,1⟩⟩, ⟨⟨0,1⟩,⟨0,1⟩⟩],
  ![⟨⟨0,1⟩,⟨0,1⟩⟩, ⟨⟨0,1⟩,⟨0,1⟩⟩, ⟨⟨2,1⟩,⟨5,2⟩⟩, ⟨⟨0,1⟩,⟨0,1⟩⟩, ⟨⟨0,1⟩,⟨0,1⟩⟩, ⟨⟨0,1⟩,⟨0,1⟩⟩, ⟨⟨3,1⟩,⟨0,1⟩⟩, ⟨⟨0,1⟩,⟨0,1⟩⟩, ⟨⟨-2,1⟩,⟨5,2⟩⟩, ⟨⟨-3,1⟩,⟨0,1⟩⟩, ⟨⟨0,1⟩,⟨0,1⟩⟩, ⟨⟨-2,1⟩,⟨-5,2⟩⟩, ⟨⟨0,1⟩,⟨0,1⟩⟩, ⟨⟨0,1⟩,⟨0,1⟩⟩, ⟨⟨2,1⟩,⟨-5,2⟩⟩, ⟨⟨0,1⟩,⟨0,1⟩⟩],
  ![⟨⟨0,1⟩,⟨0,1⟩⟩, ⟨⟨0,1⟩,⟨0,1⟩⟩, ⟨⟨0,1⟩,⟨0,1⟩⟩, ⟨⟨2,1⟩,⟨5,2⟩⟩, ⟨⟨0,1⟩,⟨0,1⟩⟩, ⟨⟨0,1⟩,⟨0,1⟩⟩, ⟨⟨0,1⟩,⟨0,1⟩⟩, ⟨⟨3,1⟩,⟨0,1⟩⟩, ⟨⟨0,1⟩,⟨0,1⟩⟩, ⟨⟨-2,1⟩,⟨5,2⟩⟩, ⟨⟨-2,1⟩,⟨5,2⟩⟩, ⟨⟨-1,1⟩,⟨0,1⟩⟩, ⟨⟨0,1⟩,⟨0,1⟩⟩, ⟨⟨0,1⟩,⟨0,1⟩⟩, ⟨⟨0,1⟩,⟨0,1⟩⟩, ⟨⟨2,1⟩,⟨-5,2⟩⟩],
  ![⟨⟨0,1⟩,⟨0,1⟩⟩, ⟨⟨0,1⟩,⟨0,1⟩⟩, ⟨⟨0,1⟩,⟨0,1⟩⟩, ⟨⟨0,1⟩,⟨0,1⟩⟩, ⟨⟨2,1⟩,⟨5,2⟩⟩, ⟨⟨0,1⟩,⟨0,1⟩⟩, ⟨⟨0,1⟩,⟨0,1⟩⟩, ⟨⟨0,1⟩,⟨0,1⟩⟩, ⟨⟨2,1⟩,⟨5,2⟩⟩, ⟨⟨0,1⟩,⟨0,1⟩⟩, ⟨⟨0,1⟩,⟨0,1⟩⟩, ⟨⟨0,1⟩,⟨0,1⟩⟩, ⟨⟨-3,1⟩,⟨0,1⟩⟩, ⟨⟨-2,1⟩,⟨-5,2⟩⟩, ⟨⟨-2,1⟩,⟨-5,2⟩⟩, ⟨⟨0,1⟩,⟨0,1⟩⟩],
  ![⟨⟨0,1⟩,⟨0,1⟩⟩, ⟨⟨0,1⟩,⟨0,1⟩⟩, ⟨⟨0,1⟩,⟨0,1⟩⟩, ⟨⟨0,1⟩,⟨0,1⟩⟩, ⟨⟨0,1⟩,⟨0,1⟩⟩, ⟨⟨2,1⟩,⟨5,2⟩⟩, ⟨⟨0,1⟩,⟨0,1⟩⟩, ⟨⟨0,1⟩,⟨0,1⟩⟩, ⟨⟨0,1⟩,⟨0,1⟩⟩, ⟨⟨2,1⟩,⟨5,2⟩⟩, ⟨⟨0,1⟩,⟨0,1⟩⟩, ⟨⟨0,1⟩,⟨0,1⟩⟩, ⟨⟨-2,1⟩,⟨5,2⟩⟩, ⟨⟨2,1⟩,⟨0,1⟩⟩, ⟨⟨-3,1⟩,⟨0,1⟩⟩, ⟨⟨-2,1⟩,⟨-5,2⟩⟩],
  ![⟨⟨0,1⟩,⟨0,1⟩⟩, ⟨⟨0,1⟩,⟨0,1⟩⟩, ⟨⟨0,1⟩,⟨0,1⟩⟩, ⟨⟨0,1⟩,⟨0,1⟩⟩, ⟨⟨0,1⟩,⟨0,1⟩⟩, ⟨⟨0,1⟩,⟨0,1⟩⟩, ⟨⟨2,1⟩,⟨5,2⟩⟩, ⟨⟨0,1⟩,⟨0,1⟩⟩, ⟨⟨0,1⟩,⟨0,1⟩⟩, ⟨⟨0,1⟩,⟨0,1⟩⟩, ⟨⟨2,1⟩,⟨5,2⟩⟩, ⟨⟨0,1⟩,⟨0,1⟩⟩, ⟨⟨-2,1⟩,⟨5,2⟩⟩, ⟨⟨-3,1⟩,⟨0,1⟩⟩, ⟨⟨1,1⟩,⟨0,1⟩⟩, ⟨⟨-2,1⟩,⟨-5,2⟩⟩],
  ![⟨⟨0,1⟩,⟨0,1⟩⟩, ⟨⟨0,1⟩,⟨0,1⟩⟩, ⟨⟨0,1⟩,⟨0,1⟩⟩, ⟨⟨0,1⟩,⟨0,1⟩⟩, ⟨⟨0,1⟩,⟨0,1⟩⟩, ⟨⟨0,1⟩,⟨0,1⟩⟩, ⟨⟨0,1⟩,⟨0,1⟩⟩, ⟨⟨2,1⟩,⟨5,2⟩⟩, ⟨⟨0,1⟩,⟨0,1⟩⟩, ⟨⟨0,1⟩,⟨0,1⟩⟩, ⟨⟨0,1⟩,⟨0,1⟩⟩, ⟨⟨2,1⟩,⟨5,2⟩⟩, ⟨⟨0,1⟩,⟨0,1⟩⟩, ⟨⟨-2,1⟩,⟨5,2⟩⟩, ⟨⟨-2,1⟩,⟨5,2⟩⟩, ⟨⟨0,1⟩,⟨0,1⟩⟩]]

def vopF : Fin 16 → Fin 16 → CQ :=
![![⟨⟨1,2⟩,⟨0,1⟩⟩, ⟨⟨0,1⟩,⟨0,1⟩⟩, ⟨⟨0,1⟩,⟨0,1⟩⟩, ⟨⟨0,1⟩,⟨0,1⟩⟩, ⟨⟨0,1⟩,⟨0,1⟩⟩, ⟨⟨1,2⟩,⟨0,1⟩⟩, ⟨⟨0,1⟩,⟨0,1⟩⟩, ⟨⟨0,1⟩,⟨0,1⟩⟩, ⟨⟨0,1⟩,⟨0,1⟩⟩, ⟨⟨0,1⟩,⟨0,1⟩⟩, ⟨⟨1,2⟩,⟨0,1⟩⟩, ⟨⟨0,1⟩,⟨0,1⟩⟩, ⟨⟨0,1⟩,⟨0,1⟩⟩, ⟨⟨0,1⟩,⟨0,1⟩⟩, ⟨⟨0,1⟩,⟨0,1⟩⟩, ⟨⟨1,2⟩,⟨0,1⟩⟩],
  ![⟨⟨0,1⟩,⟨0,1⟩⟩, ⟨⟨0,1⟩,⟨0,1⟩⟩, ⟨⟨1,2⟩,⟨0,1⟩⟩, ⟨⟨0,1⟩,⟨0,1⟩⟩, ⟨⟨0,1⟩,⟨0,1⟩⟩, ⟨⟨0,1⟩,⟨0,1⟩⟩, ⟨⟨0,1⟩,⟨0,1⟩⟩, ⟨⟨1,2⟩,⟨0,1⟩⟩, ⟨⟨1,2⟩,⟨0,1⟩⟩, ⟨⟨0,1⟩,⟨0,1⟩⟩, ⟨⟨0,1⟩,⟨0,1⟩⟩, ⟨⟨0,1⟩,⟨0,1⟩⟩, ⟨⟨0,1⟩,⟨0,1⟩⟩, ⟨⟨1,2⟩,⟨0,1⟩⟩, ⟨⟨0,1⟩,⟨0,1⟩⟩, ⟨⟨0,1⟩,⟨0,1⟩⟩],
  ![⟨⟨0,1⟩,⟨0,1⟩⟩, ⟨⟨0,1⟩,⟨0,1⟩⟩, ⟨⟨0,1⟩,⟨-1,2⟩⟩, ⟨⟨0,1⟩,⟨0,1⟩⟩, ⟨⟨0,1⟩,⟨0,1⟩⟩, ⟨⟨0,1⟩,⟨0,1⟩⟩, ⟨⟨0,1⟩,⟨0,1⟩⟩, ⟨⟨0,1⟩,⟨-1,2⟩⟩, ⟨⟨0,1⟩,⟨1,2⟩⟩, ⟨⟨0,1⟩,⟨0,1⟩⟩, ⟨⟨0,1⟩,⟨0,1⟩⟩, ⟨⟨0,1⟩,⟨0,1⟩⟩, ⟨⟨0,1⟩,⟨0,1⟩⟩, ⟨⟨0,1⟩,⟨1,2⟩⟩, ⟨⟨0,1⟩,⟨0,1⟩⟩, ⟨⟨0,1⟩,⟨0,1⟩⟩],
  ![⟨⟨1,2⟩,⟨0,1⟩⟩, ⟨⟨0,1⟩,⟨0,1⟩⟩, ⟨⟨0,1⟩,⟨0,1⟩⟩, ⟨⟨0,1⟩,⟨0,1⟩⟩, ⟨⟨0,1⟩,⟨0,1⟩⟩, ⟨⟨1,2⟩,⟨0,1⟩⟩, ⟨⟨0,1⟩,⟨0,1⟩⟩, ⟨⟨0,1⟩,⟨0,1⟩⟩, ⟨⟨0,1⟩,⟨0,1⟩⟩, ⟨⟨0,1⟩,⟨0,1⟩⟩, ⟨⟨-1,2⟩,⟨0,1⟩⟩, ⟨⟨0,1⟩,⟨0,1⟩⟩, ⟨⟨0,1⟩,⟨0,1⟩⟩, ⟨⟨0,1⟩,⟨0,1⟩⟩, ⟨⟨0,1⟩,⟨0,1⟩⟩, ⟨⟨-1,2⟩,⟨0,1⟩⟩],
  ![⟨⟨0,1⟩,⟨0,1⟩⟩, ⟨⟨1,2⟩,⟨0,1⟩⟩, ⟨⟨0,1⟩,⟨0,1⟩⟩, ⟨⟨0,1⟩,⟨0,1⟩⟩, ⟨⟨1,2⟩,⟨0,1⟩⟩, ⟨⟨0,1⟩,⟨0,1⟩⟩, ⟨⟨0,1⟩,⟨0,1⟩⟩, ⟨⟨0,1⟩,⟨0,1⟩⟩, ⟨⟨0,1⟩,⟨0,1⟩⟩, ⟨⟨0,1⟩,⟨0,1⟩⟩, ⟨⟨0,1⟩,⟨0,1⟩⟩, ⟨⟨1,2⟩,⟨0,1⟩⟩, ⟨⟨0,1⟩,⟨0,1⟩⟩, ⟨⟨0,1⟩,⟨0,1⟩⟩, ⟨⟨1,2⟩,⟨0,1⟩⟩, ⟨⟨0,1⟩,⟨0,1⟩⟩],
  ![⟨⟨0,1⟩,⟨0,1⟩⟩, ⟨⟨0,1⟩,⟨-1,2⟩⟩, ⟨⟨0,1⟩,⟨0,1⟩⟩, ⟨⟨0,1⟩,⟨0,1⟩⟩, ⟨⟨0,1⟩,⟨1,2⟩⟩, ⟨⟨0,1⟩,⟨0,1⟩⟩, ⟨⟨0,1⟩,⟨0,1⟩⟩, ⟨⟨0,1⟩,⟨0,1⟩⟩, ⟨⟨0,1⟩,⟨0,1⟩⟩, ⟨⟨0,1⟩,⟨0,1⟩⟩, ⟨⟨0,1⟩,⟨0,1⟩⟩, ⟨⟨0,1⟩,⟨-1,2⟩⟩, ⟨⟨0,1⟩,⟨0,1⟩⟩, ⟨⟨0,1⟩,⟨0,1⟩⟩, ⟨⟨0,1⟩,⟨1,2⟩⟩, ⟨⟨0,1⟩,⟨0,1⟩⟩],
  ![⟨⟨1,2⟩,⟨0,1⟩⟩, ⟨⟨0,1⟩,⟨0,1⟩⟩, ⟨⟨0,1⟩,⟨0,1⟩⟩, ⟨⟨0,1⟩,⟨0,1⟩⟩, ⟨⟨0,1⟩,⟨0,1⟩⟩, ⟨⟨-1,2⟩,⟨0,1⟩⟩, ⟨⟨0,1⟩,⟨0,1⟩⟩, ⟨⟨0,1⟩,⟨0,1⟩⟩, ⟨⟨0,1⟩,⟨0,1⟩⟩, ⟨⟨0,1⟩,⟨0,1⟩⟩, ⟨⟨1,2⟩,⟨0,1⟩⟩, ⟨⟨0,1⟩,⟨0,1⟩⟩, ⟨⟨0,1⟩,⟨0,1⟩⟩, ⟨⟨0,1⟩,⟨0,1⟩⟩, ⟨⟨0,1⟩,⟨0,1⟩⟩, ⟨⟨-1,2⟩,⟨0,1⟩⟩],
  ![⟨⟨0,1⟩,⟨0,1⟩⟩, ⟨⟨0,1⟩,⟨0,1⟩⟩, ⟨⟨1,2⟩,⟨0,1⟩⟩, ⟨⟨0,1⟩,⟨0,1⟩⟩, ⟨⟨0,1⟩,⟨0,1⟩⟩, ⟨⟨0,1⟩,⟨0,1⟩⟩, ⟨⟨0,1⟩,⟨0,1⟩⟩, ⟨⟨-1,2⟩,⟨0,1⟩⟩, ⟨⟨1,2⟩,⟨0,1⟩⟩, ⟨⟨0,1⟩,⟨0,1⟩⟩, ⟨⟨0,1⟩,⟨0,1⟩⟩, ⟨⟨0,1⟩,⟨0,1⟩⟩, ⟨⟨0,1⟩,⟨0,1⟩⟩, ⟨⟨-1,2⟩,⟨0,1⟩⟩, ⟨⟨0,1⟩,⟨0,1⟩⟩, ⟨⟨0,1⟩,⟨0,1⟩⟩],
  ![⟨⟨0,1⟩,⟨0,1⟩⟩, ⟨⟨0,1⟩,⟨0,1⟩⟩, ⟨⟨0,1⟩,⟨-1,2⟩⟩, ⟨⟨0,1⟩,⟨0,1⟩⟩, ⟨⟨0,1⟩,⟨0,1⟩⟩, ⟨⟨0,1⟩,⟨0,1⟩⟩, ⟨⟨0,1⟩,⟨0,1⟩⟩, ⟨⟨0,1⟩,⟨1,2⟩⟩, ⟨⟨0,1⟩,⟨1,2⟩⟩, ⟨⟨0,1⟩,⟨0,1⟩⟩, ⟨⟨0,1⟩,⟨0,1⟩⟩, ⟨⟨0,1⟩,⟨0,1⟩⟩, ⟨⟨0,1⟩,⟨0,1⟩⟩, ⟨⟨0,1⟩,⟨-1,2⟩⟩, ⟨⟨0,1⟩,⟨0,1⟩⟩, ⟨⟨0,1⟩,⟨0,1⟩⟩],
  ![⟨⟨0,1⟩,⟨0,1⟩⟩, ⟨⟨1,2⟩,⟨0,1⟩⟩, ⟨⟨0,1⟩,⟨0,1⟩⟩, ⟨⟨0,1⟩,⟨0,1⟩⟩, ⟨⟨1,2⟩,⟨0,1⟩⟩, ⟨⟨0,1⟩,⟨0,1⟩⟩, ⟨⟨0,1⟩,⟨0,1⟩⟩, ⟨⟨0,1⟩,⟨0,1⟩⟩, ⟨⟨0,1⟩,⟨0,1⟩⟩, ⟨⟨0,1⟩,⟨0,1⟩⟩, ⟨⟨0,1⟩,⟨0,1⟩⟩, ⟨⟨-1,2⟩,⟨0,1⟩⟩, ⟨⟨0,1⟩,⟨0,1⟩⟩, ⟨⟨0,1⟩,⟨0,1⟩⟩, ⟨⟨-1,2⟩,⟨0,1⟩⟩, ⟨⟨0,1⟩,⟨0,1⟩⟩],
  ![⟨⟨0,1⟩,⟨0,1⟩⟩, ⟨⟨0,1⟩,⟨-1,2⟩⟩, ⟨⟨0,1⟩,⟨0,1⟩⟩, ⟨⟨0,1⟩,⟨0,1⟩⟩, ⟨⟨0,1⟩,⟨1,2⟩⟩, ⟨⟨0,1⟩,⟨0,1⟩⟩, ⟨⟨0,1⟩,⟨0,1⟩⟩, ⟨⟨0,1⟩,⟨0,1⟩⟩, ⟨⟨0,1⟩,⟨0,1⟩⟩, ⟨⟨0,1⟩,⟨0,1⟩⟩, ⟨⟨0,1⟩,⟨0,1⟩⟩, ⟨⟨0,1⟩,⟨1,2⟩⟩, ⟨⟨0,1⟩,⟨0,1⟩⟩, ⟨⟨0,1⟩,⟨0,1⟩⟩, ⟨⟨0,1⟩,⟨-1,2⟩⟩, ⟨⟨0,1⟩,⟨0,1⟩⟩],
  ![⟨⟨0,1⟩,⟨0,1⟩⟩, ⟨⟨0,1⟩,⟨0,1⟩⟩, ⟨⟨0,1⟩,⟨0,1⟩⟩, ⟨⟨1,2⟩,⟨0,1⟩⟩, ⟨⟨0,1⟩,⟨0,1⟩⟩, ⟨⟨0,1⟩,⟨0,1⟩⟩, ⟨⟨1,2⟩,⟨0,1⟩⟩, ⟨⟨0,1⟩,⟨0,1⟩⟩, ⟨⟨0,1⟩,⟨0,1⟩⟩, ⟨⟨1,2⟩,⟨0,1⟩⟩, ⟨⟨0,1⟩,⟨0,1⟩⟩, ⟨⟨0,1⟩,⟨0,1⟩⟩, ⟨⟨1,2⟩,⟨0,1⟩⟩, ⟨⟨0,1⟩,⟨0,1⟩⟩, ⟨⟨0,1⟩,⟨0,1⟩⟩, ⟨⟨0,1⟩,⟨0,1⟩⟩],
  ![⟨⟨0,1⟩,⟨0,1⟩⟩, ⟨⟨0,1⟩,⟨0,1⟩⟩, ⟨⟨0,1⟩,⟨0,1⟩⟩, ⟨⟨0,1⟩,⟨-1,2⟩⟩, ⟨⟨0,1⟩,⟨0,1⟩⟩, ⟨⟨0,1⟩,⟨0,1⟩⟩, ⟨⟨0,1⟩,⟨1,2⟩⟩, ⟨⟨0,1⟩,⟨0,1⟩⟩, ⟨⟨0,1⟩,⟨0,1⟩⟩, ⟨⟨0,1⟩,⟨-1,2⟩⟩, ⟨⟨0,1⟩,⟨0,1⟩⟩, ⟨⟨0,1⟩,⟨0,1⟩⟩, ⟨⟨0,1⟩,⟨1,2⟩⟩, ⟨⟨0,1⟩,⟨0,1⟩⟩, ⟨⟨0,1⟩,⟨0,1⟩⟩, ⟨⟨0,1⟩,⟨0,1⟩⟩],
  ![⟨⟨0,1⟩,⟨0,1⟩⟩, ⟨⟨0,1⟩,⟨0,1⟩⟩, ⟨⟨0,1⟩,⟨0,1⟩⟩, ⟨⟨0,1⟩,⟨-1,2⟩⟩, ⟨⟨0,1⟩,⟨0,1⟩⟩, ⟨⟨0,1⟩,⟨0,1⟩⟩, ⟨⟨0,1⟩,⟨-1,2⟩⟩, ⟨⟨0,1⟩,⟨0,1⟩⟩, ⟨⟨0,1⟩,⟨0,1⟩⟩, ⟨⟨0,1⟩,⟨1,2⟩⟩, ⟨⟨0,1⟩,⟨0,1⟩⟩, ⟨⟨0,1⟩,⟨0,1⟩⟩, ⟨⟨0,1⟩,⟨1,2⟩⟩, ⟨⟨0,1⟩,⟨0,1⟩⟩, ⟨⟨0,1⟩,⟨0,1⟩⟩, ⟨⟨0,1⟩,⟨0,1⟩⟩],
  ![⟨⟨0,1⟩,⟨0,1⟩⟩, ⟨⟨0,1⟩,⟨0,1⟩⟩, ⟨⟨0,1⟩,⟨0,1⟩⟩, ⟨⟨-1,2⟩,⟨0,1⟩⟩, ⟨⟨0,1⟩,⟨0,1⟩⟩, ⟨⟨0,1⟩,⟨0,1⟩⟩, ⟨⟨1,2⟩,⟨0,1⟩⟩, ⟨⟨0,1⟩,⟨0,1⟩⟩, ⟨⟨0,1⟩,⟨0,1⟩⟩, ⟨⟨1,2⟩,⟨0,1⟩⟩, ⟨⟨0,1⟩,⟨0,1⟩⟩, ⟨⟨0,1⟩,⟨0,1⟩⟩, ⟨⟨-1,2⟩,⟨0,1⟩⟩, ⟨⟨0,1⟩,⟨0,1⟩⟩, ⟨⟨0,1⟩,⟨0,1⟩⟩, ⟨⟨0,1⟩,⟨0,1⟩⟩],
  ![⟨⟨1,2⟩,⟨0,1⟩⟩, ⟨⟨0,1⟩,⟨0,1⟩⟩, ⟨⟨0,1⟩,⟨0,1⟩⟩, ⟨⟨0,1⟩,⟨0,1⟩⟩, ⟨⟨0,1⟩,⟨0,1⟩⟩, ⟨⟨-1,2⟩,⟨0,1⟩⟩, ⟨⟨0,1⟩,⟨0,1⟩⟩, ⟨⟨0,1⟩,⟨0,1⟩⟩, ⟨⟨0,1⟩,⟨0,1⟩⟩, ⟨⟨0,1⟩,⟨0,1⟩⟩, ⟨⟨-1,2⟩,⟨0,1⟩⟩, ⟨⟨0,1⟩,⟨0,1⟩⟩, ⟨⟨0,1⟩,⟨0,1⟩⟩, ⟨⟨0,1⟩,⟨0,1⟩⟩, ⟨⟨0,1⟩,⟨0,1⟩⟩, ⟨⟨1,2⟩,⟨0,1⟩⟩]]

def mvF : Fin 16 → Fin 16 → CQ :=
![![⟨⟨0,1⟩,⟨0,1⟩⟩, ⟨⟨0,1⟩,⟨0,1⟩⟩, ⟨⟨0,1⟩,⟨0,1⟩⟩, ⟨⟨0,1⟩,⟨0,1⟩⟩, ⟨⟨0,1⟩,⟨0,1⟩⟩, ⟨⟨0,1⟩,⟨0,1⟩⟩, ⟨⟨0,1⟩,⟨0,1⟩⟩, ⟨⟨0,1⟩,⟨0,1⟩⟩, ⟨⟨0,1⟩,⟨0,1⟩⟩, ⟨⟨0,1⟩,⟨0,1⟩⟩, ⟨⟨0,1⟩,⟨0,1⟩⟩, ⟨⟨0,1⟩,⟨0,1⟩⟩, ⟨⟨0,1⟩,⟨0,1⟩⟩, ⟨⟨0,1⟩,⟨0,1⟩⟩, ⟨⟨0,1⟩,⟨0,1⟩⟩, ⟨⟨0,1⟩,⟨0,1⟩⟩],
  ![⟨⟨0,1⟩,⟨-5,2⟩⟩, ⟨⟨-3,2⟩,⟨0,1⟩⟩, ⟨⟨2,1⟩,⟨0,1⟩⟩, ⟨⟨0,1⟩,⟨0,1⟩⟩, ⟨⟨3,2⟩,⟨0,1⟩⟩, ⟨⟨0,1⟩,⟨-5,2⟩⟩, ⟨⟨0,1⟩,⟨0,1⟩⟩, ⟨⟨-1,1⟩,⟨0,1⟩⟩, ⟨⟨-2,1⟩,⟨0,1⟩⟩, ⟨⟨0,1⟩,⟨0,1⟩⟩, ⟨⟨0,1⟩,⟨5,2⟩⟩, ⟨⟨3,2⟩,⟨0,1⟩⟩, ⟨⟨0,1⟩,⟨0,1⟩⟩, ⟨⟨1,1⟩,⟨0,1⟩⟩, ⟨⟨-3,2⟩,⟨0,1⟩⟩, ⟨⟨0,1⟩,⟨5,2⟩⟩],
  ![⟨⟨0,1⟩,⟨2,1⟩⟩, ⟨⟨0,1⟩,⟨3,2⟩⟩, ⟨⟨0,1⟩,⟨-2,1⟩⟩, ⟨⟨0,1⟩,⟨0,1⟩⟩, ⟨⟨0,1⟩,⟨3,2⟩⟩, ⟨⟨0,1⟩,⟨2,1⟩⟩, ⟨⟨0,1⟩,⟨0,1⟩⟩, ⟨⟨0,1⟩,⟨1,1⟩⟩, ⟨⟨0,1⟩,⟨-2,1⟩⟩, ⟨⟨0,1⟩,⟨0,1⟩⟩, ⟨⟨0,1⟩,⟨-2,1⟩⟩, ⟨⟨0,1⟩,⟨-3,2⟩⟩, ⟨⟨0,1⟩,⟨0,1⟩⟩, ⟨⟨0,1⟩,⟨1,1⟩⟩, ⟨⟨0,1⟩,⟨-3,2⟩⟩, ⟨⟨0,1⟩,⟨-2,1⟩⟩],
  ![⟨⟨0,1⟩,⟨0,1⟩⟩, ⟨⟨0,1⟩,⟨0,1⟩⟩, ⟨⟨-2,1⟩,⟨5,2⟩⟩, ⟨⟨0,1⟩,⟨0,1⟩⟩, ⟨⟨0,1⟩,⟨0,1⟩⟩, ⟨⟨0,1⟩,⟨0,1⟩⟩, ⟨⟨-3,1⟩,⟨0,1⟩⟩, ⟨⟨-2,1⟩,⟨5,2⟩⟩, ⟨⟨2,1⟩,⟨5,2⟩⟩, ⟨⟨3,1⟩,⟨0,1⟩⟩, ⟨⟨0,1⟩,⟨0,1⟩⟩, ⟨⟨0,1⟩,⟨0,1⟩⟩, ⟨⟨0,1⟩,⟨0,1⟩⟩, ⟨⟨2,1⟩,⟨5,2⟩⟩, ⟨⟨0,1⟩,⟨0,1⟩⟩, ⟨⟨0,1⟩,⟨0,1⟩⟩],
  ![⟨⟨0,1⟩,⟨-5,2⟩⟩, ⟨⟨5,2⟩,⟨0,1⟩⟩, ⟨⟨-3,2⟩,⟨0,1⟩⟩, ⟨⟨0,1⟩,⟨0,1⟩⟩, ⟨⟨-5,2⟩,⟨0,1⟩⟩, ⟨⟨0,1⟩,⟨5,2⟩⟩, ⟨⟨0,1⟩,⟨0,1⟩⟩, ⟨⟨3,2⟩,⟨0,1⟩⟩, ⟨⟨3,2⟩,⟨0,1⟩⟩, ⟨⟨0,1⟩,⟨0,1⟩⟩, ⟨⟨0,1⟩,⟨-5,2⟩⟩, ⟨⟨-1,2⟩,⟨0,1⟩⟩, ⟨⟨0,1⟩,⟨0,1⟩⟩, ⟨⟨-3,2⟩,⟨0,1⟩⟩, ⟨⟨1,2⟩,⟨0,1⟩⟩, ⟨⟨0,1⟩,⟨5,2⟩⟩],
  ![⟨⟨0,1⟩,⟨2,1⟩⟩, ⟨⟨0,1⟩,⟨-5,2⟩⟩, ⟨⟨0,1⟩,⟨3,2⟩⟩, ⟨⟨0,1⟩,⟨0,1⟩⟩, ⟨⟨0,1⟩,⟨-5,2⟩⟩, ⟨⟨0,1⟩,⟨-2,1⟩⟩, ⟨⟨0,1⟩,⟨0,1⟩⟩, ⟨⟨0,1⟩,⟨-3,2⟩⟩, ⟨⟨0,1⟩,⟨3,2⟩⟩, ⟨⟨0,1⟩,⟨0,1⟩⟩, ⟨⟨0,1⟩,⟨2,1⟩⟩, ⟨⟨0,1⟩,⟨1,2⟩⟩, ⟨⟨0,1⟩,⟨0,1⟩⟩, ⟨⟨0,1⟩,⟨-3,2⟩⟩, ⟨⟨0,1⟩,⟨1,2⟩⟩, ⟨⟨0,1⟩,⟨-2,1⟩⟩],
  ![⟨⟨0,1⟩,⟨0,1⟩⟩, ⟨⟨-2,1⟩,⟨5,2⟩⟩, ⟨⟨0,1⟩,⟨0,1⟩⟩, ⟨⟨0,1⟩,⟨0,1⟩⟩, ⟨⟨2,1⟩,⟨5,2⟩⟩, ⟨⟨0,1⟩,⟨0,1⟩⟩, ⟨⟨3,1⟩,⟨0,1⟩⟩, ⟨⟨0,1⟩,⟨0,1⟩⟩, ⟨⟨0,1⟩,⟨0,1⟩⟩, ⟨⟨-3,1⟩,⟨0,1⟩⟩, ⟨⟨0,1⟩,⟨0,1⟩⟩, ⟨⟨-2,1⟩,⟨5,2⟩⟩, ⟨⟨0,1⟩,⟨0,1⟩⟩, ⟨⟨0,1⟩,⟨0,1⟩⟩, ⟨⟨2,1⟩,⟨5,2⟩⟩, ⟨⟨0,1⟩,⟨0,1⟩⟩],
  ![⟨⟨0,1⟩,⟨-5,2⟩⟩, ⟨⟨-3,2⟩,⟨0,1⟩⟩, ⟨⟨2,1⟩,⟨0,1⟩⟩, ⟨⟨-2,1⟩,⟨5,2⟩⟩, ⟨⟨3,2⟩,⟨0,1⟩⟩, ⟨⟨0,1⟩,⟨5,2⟩⟩, ⟨⟨2,1⟩,⟨5,2⟩⟩, ⟨⟨1,1⟩,⟨0,1⟩⟩, ⟨⟨-2,1⟩,⟨0,1⟩⟩, ⟨⟨-2,1⟩,⟨5,2⟩⟩, ⟨⟨0,1⟩,⟨5,2⟩⟩, ⟨⟨-3,2⟩,⟨0,1⟩⟩, ⟨⟨2,1⟩,⟨5,2⟩⟩, ⟨⟨-1,1⟩,⟨0,1⟩⟩, ⟨⟨3,2⟩,⟨0,1⟩⟩, ⟨⟨0,1⟩,⟨-5,2⟩⟩],
  ![⟨⟨0,1⟩,⟨2,1⟩⟩, ⟨⟨0,1⟩,⟨3,2⟩⟩, ⟨⟨0,1⟩,⟨-2,1⟩⟩, ⟨⟨5,2⟩,⟨2,1⟩⟩, ⟨⟨0,1⟩,⟨3,2⟩⟩, ⟨⟨0,1⟩,⟨-2,1⟩⟩, ⟨⟨5,2⟩,⟨-2,1⟩⟩, ⟨⟨0,1⟩,⟨-1,1⟩⟩, ⟨⟨0,1⟩,⟨-2,1⟩⟩, ⟨⟨-5,2⟩,⟨-2,1⟩⟩, ⟨⟨0,1⟩,⟨-2,1⟩⟩, ⟨⟨0,1⟩,⟨3,2⟩⟩, ⟨⟨-5,2⟩,⟨2,1⟩⟩, ⟨⟨0,1⟩,⟨-1,1⟩⟩, ⟨⟨0,1⟩,⟨3,2⟩⟩, ⟨⟨0,1⟩,⟨2,1⟩⟩],
  ![⟨⟨0,1⟩,⟨-5,2⟩⟩, ⟨⟨5,2⟩,⟨0,1⟩⟩, ⟨⟨-3,2⟩,⟨0,1⟩⟩, ⟨⟨-2,1⟩,⟨5,2⟩⟩, ⟨⟨-5,2⟩,⟨0,1⟩⟩, ⟨⟨0,1⟩,⟨5,2⟩⟩, ⟨⟨-2,1⟩,⟨5,2⟩⟩, ⟨⟨-3,2⟩,⟨0,1⟩⟩, ⟨⟨3,2⟩,⟨0,1⟩⟩, ⟨⟨2,1⟩,⟨5,2⟩⟩, ⟨⟨0,1⟩,⟨5,2⟩⟩, ⟨⟨1,2⟩,⟨0,1⟩⟩, ⟨⟨2,1⟩,⟨5,2⟩⟩, ⟨⟨3,2⟩,⟨0,1⟩⟩, ⟨⟨-1,2⟩,⟨0,1⟩⟩, ⟨⟨0,1⟩,⟨-5,2⟩⟩],
  ![⟨⟨0,1⟩,⟨2,1⟩⟩, ⟨⟨0,1⟩,⟨-5,2⟩⟩, ⟨⟨0,1⟩,⟨3,2⟩⟩, ⟨⟨5,2⟩,⟨2,1⟩⟩, ⟨⟨0,1⟩,⟨-5,2⟩⟩, ⟨⟨0,1⟩,⟨-2,1⟩⟩, ⟨⟨-5,2⟩,⟨-2,1⟩⟩, ⟨⟨0,1⟩,⟨3,2⟩⟩, ⟨⟨0,1⟩,⟨3,2⟩⟩, ⟨⟨5,2⟩,⟨-2,1⟩⟩, ⟨⟨0,1⟩,⟨-2,1⟩⟩, ⟨⟨0,1⟩,⟨-1,2⟩⟩, ⟨⟨-5,2⟩,⟨2,1⟩⟩, ⟨⟨0,1⟩,⟨3,2⟩⟩, ⟨⟨0,1⟩,⟨-1,2⟩⟩, ⟨⟨0,1⟩,⟨2,1⟩⟩],
  ![⟨⟨0,1⟩,⟨0,1⟩⟩, ⟨⟨0,1⟩,⟨-5,2⟩⟩, ⟨⟨0,1⟩,⟨-5,2⟩⟩, ⟨⟨3,2⟩,⟨0,1⟩⟩, ⟨⟨0,1⟩,⟨-5,2⟩⟩, ⟨⟨0,1⟩,⟨0,1⟩⟩, ⟨⟨-1,2⟩,⟨0,1⟩⟩, ⟨⟨0,1⟩,⟨5,2⟩⟩, ⟨⟨0,1⟩,⟨-5,2⟩⟩, ⟨⟨1,2⟩,⟨0,1⟩⟩, ⟨⟨0,1⟩,⟨0,1⟩⟩, ⟨⟨0,1⟩,⟨5,2⟩⟩, ⟨⟨-3,2⟩,⟨0,1⟩⟩, ⟨⟨0,1⟩,⟨5,2⟩⟩, ⟨⟨0,1⟩,⟨5,2⟩⟩, ⟨⟨0,1⟩,⟨0,1⟩⟩],
  ![⟨⟨0,1⟩,⟨0,1⟩⟩, ⟨⟨-5,2⟩,⟨0,1⟩⟩, ⟨⟨0,1⟩,⟨2,1⟩⟩, ⟨⟨0,1⟩,⟨-3,2⟩⟩, ⟨⟨5,2⟩,⟨0,1⟩⟩, ⟨⟨0,1⟩,⟨-3,1⟩⟩, ⟨⟨0,1⟩,⟨-1,2⟩⟩, ⟨⟨0,1⟩,⟨-2,1⟩⟩, ⟨⟨0,1⟩,⟨2,1⟩⟩, ⟨⟨0,1⟩,⟨-1,2⟩⟩, ⟨⟨0,1⟩,⟨3,1⟩⟩, ⟨⟨5,2⟩,⟨0,1⟩⟩, ⟨⟨0,1⟩,⟨-3,2⟩⟩, ⟨⟨0,1⟩,⟨-2,1⟩⟩, ⟨⟨-5,2⟩,⟨0,1⟩⟩, ⟨⟨0,1⟩,⟨0,1⟩⟩],
  ![⟨⟨0,1⟩,⟨0,1⟩⟩, ⟨⟨0,1⟩,⟨2,1⟩⟩, ⟨⟨-5,2⟩,⟨0,1⟩⟩, ⟨⟨0,1⟩,⟨-3,2⟩⟩, ⟨⟨0,1⟩,⟨2,1⟩⟩, ⟨⟨0,1⟩,⟨3,1⟩⟩, ⟨⟨0,1⟩,⟨1,2⟩⟩, ⟨⟨5,2⟩,⟨0,1⟩⟩, ⟨⟨5,2⟩,⟨0,1⟩⟩, ⟨⟨0,1⟩,⟨1,2⟩⟩, ⟨⟨0,1⟩,⟨-3,1⟩⟩, ⟨⟨0,1⟩,⟨-2,1⟩⟩, ⟨⟨0,1⟩,⟨-3,2⟩⟩, ⟨⟨-5,2⟩,⟨0,1⟩⟩, ⟨⟨0,1⟩,⟨-2,1⟩⟩, ⟨⟨0,1⟩,⟨0,1⟩⟩],
  ![⟨⟨0,1⟩,⟨0,1⟩⟩, ⟨⟨2,1⟩,⟨0,1⟩⟩, ⟨⟨2,1⟩,⟨0,1⟩⟩, ⟨⟨-3,2⟩,⟨0,1⟩⟩, ⟨⟨-2,1⟩,⟨0,1⟩⟩, ⟨⟨0,1⟩,⟨0,1⟩⟩, ⟨⟨-1,2⟩,⟨0,1⟩⟩, ⟨⟨-2,1⟩,⟨0,1⟩⟩, ⟨⟨-2,1⟩,⟨0,1⟩⟩, ⟨⟨1,2⟩,⟨0,1⟩⟩, ⟨⟨0,1⟩,⟨0,1⟩⟩, ⟨⟨-2,1⟩,⟨0,1⟩⟩, ⟨⟨3,2⟩,⟨0,1⟩⟩, ⟨⟨2,1⟩,⟨0,1⟩⟩, ⟨⟨2,1⟩,⟨0,1⟩⟩, ⟨⟨0,1⟩,⟨0,1⟩⟩],
  ![⟨⟨0,1⟩,⟨0,1⟩⟩, ⟨⟨-2,1⟩,⟨5,2⟩⟩, ⟨⟨-2,1⟩,⟨5,2⟩⟩, ⟨⟨0,1⟩,⟨0,1⟩⟩, ⟨⟨2,1⟩,⟨5,2⟩⟩, ⟨⟨0,1⟩,⟨0,1⟩⟩, ⟨⟨0,1⟩,⟨0,1⟩⟩, ⟨⟨2,1⟩,⟨-5,2⟩⟩, ⟨⟨2,1⟩,⟨5,2⟩⟩, ⟨⟨0,1⟩,⟨0,1⟩⟩, ⟨⟨0,1⟩,⟨0,1⟩⟩, ⟨⟨2,1⟩,⟨-5,2⟩⟩, ⟨⟨0,1⟩,⟨0,1⟩⟩, ⟨⟨-2,1⟩,⟨-5,2⟩⟩, ⟨⟨-2,1⟩,⟨-5,2⟩⟩, ⟨⟨0,1⟩,⟨0,1⟩⟩]]

def ddF : Fin 16 → CQ :=
![⟨⟨1,1⟩,⟨0,1⟩⟩, ⟨⟨1,1⟩,⟨0,1⟩⟩, ⟨⟨-1,1⟩,⟨0,1⟩⟩, ⟨⟨1,1⟩,⟨0,1⟩⟩, ⟨⟨1,1⟩,⟨0,1⟩⟩, ⟨⟨-1,1⟩,⟨0,1⟩⟩, ⟨⟨1,1⟩,⟨0,1⟩⟩, ⟨⟨1,1⟩,⟨0,1⟩⟩, ⟨⟨-1,1⟩,⟨0,1⟩⟩, ⟨⟨1,1⟩,⟨0,1⟩⟩, ⟨⟨-1,1⟩,⟨0,1⟩⟩, ⟨⟨1,1⟩,⟨0,1⟩⟩, ⟨⟨-1,1⟩,⟨0,1⟩⟩, ⟨⟨-1,1⟩,⟨0,1⟩⟩, ⟨⟨1,1⟩,⟨0,1⟩⟩, ⟨⟨1,1⟩,⟨0,1⟩⟩]

def prodF : Fin 16 → Fin 4 → Fin 4 → CQ :=
![![![⟨⟨1,1⟩,⟨0,1⟩⟩, ⟨⟨0,1⟩,⟨0,1⟩⟩, ⟨⟨0,1⟩,⟨0,1⟩⟩, ⟨⟨0,1⟩,⟨0,1⟩⟩],
  ![⟨⟨0,1⟩,⟨0,1⟩⟩, ⟨⟨1,1⟩,⟨0,1⟩⟩, ⟨⟨0,1⟩,⟨0,1⟩⟩, ⟨⟨0,1⟩,⟨0,1⟩⟩],
  ![⟨⟨0,1⟩,⟨0,1⟩⟩, ⟨⟨0,1⟩,⟨0,1⟩⟩, ⟨⟨1,1⟩,⟨0,1⟩⟩, ⟨⟨0,1⟩,⟨0,1⟩⟩],
  ![⟨⟨0,1⟩,⟨0,1⟩⟩, ⟨⟨0,1⟩,⟨0,1⟩⟩, ⟨⟨0,1⟩,⟨0,1⟩⟩, ⟨⟨1,1⟩,⟨0,1⟩⟩]],
 ![![⟨⟨0,1⟩,⟨0,1⟩⟩, ⟨⟨0,1⟩,⟨0,1⟩⟩, ⟨⟨1,2⟩,⟨0,1⟩⟩, ⟨⟨0,1⟩,⟨0,1⟩⟩],
  ![⟨⟨0,1⟩,⟨0,1⟩⟩, ⟨⟨0,1⟩,⟨0,1⟩⟩, ⟨⟨0,1⟩,⟨0,1⟩⟩, ⟨⟨1,2⟩,⟨0,1⟩⟩],
  ![⟨⟨1,2⟩,⟨0,1⟩⟩, ⟨⟨0,1⟩,⟨0,1⟩⟩, ⟨⟨0,1⟩,⟨0,1⟩⟩, ⟨⟨0,1⟩,⟨0,1⟩⟩],
  ![⟨⟨0,1⟩,⟨0,1⟩⟩, ⟨⟨1,2⟩,⟨0,1⟩⟩, ⟨⟨0,1⟩,⟨0,1⟩⟩, ⟨⟨0,1⟩,⟨0,1⟩⟩]],
 ![![⟨⟨0,1⟩,⟨0,1⟩⟩, ⟨⟨0,1⟩,⟨0,1⟩⟩, ⟨⟨0,1⟩,⟨-1,2⟩⟩, ⟨⟨0,1⟩,⟨0,1⟩⟩],
  ![⟨⟨0,1⟩,⟨0,1⟩⟩, ⟨⟨0,1⟩,⟨0,1⟩⟩, ⟨⟨0,1⟩,⟨0,1⟩⟩, ⟨⟨0,1⟩,⟨-1,2⟩⟩],
  ![⟨⟨0,1⟩,⟨1,2⟩⟩, ⟨⟨0,1⟩,⟨0,1⟩⟩, ⟨⟨0,1⟩,⟨0,1⟩⟩, ⟨⟨0,1⟩,⟨0,1⟩⟩],
  ![⟨⟨0,1⟩,⟨0,1⟩⟩, ⟨⟨0,1⟩,⟨1,2⟩⟩, ⟨⟨0,1⟩,⟨0,1⟩⟩, ⟨⟨0,1⟩,⟨0,1⟩⟩]],
 ![![⟨⟨1,2⟩,⟨0,1⟩⟩, ⟨⟨0,1⟩,⟨0,1⟩⟩, ⟨⟨0,1⟩,⟨0,1⟩⟩, ⟨⟨0,1⟩,⟨0,1⟩⟩],
  ![⟨⟨0,1⟩,⟨0,1⟩⟩, ⟨⟨1,2⟩,⟨0,1⟩⟩, ⟨⟨0,1⟩,⟨0,1⟩⟩, ⟨⟨0,1⟩,⟨0,1⟩⟩],
  ![⟨⟨0,1⟩,⟨0,1⟩⟩, ⟨⟨0,1⟩,⟨0,1⟩⟩, ⟨⟨-1,2⟩,⟨0,1⟩⟩, ⟨⟨0,1⟩,⟨0,1⟩⟩],
  ![⟨⟨0,1⟩,⟨0,1⟩⟩, ⟨⟨0,1⟩,⟨0,1⟩⟩, ⟨⟨0,1⟩,⟨0,1⟩⟩, ⟨⟨-1,2⟩,⟨0,1⟩⟩]],
 ![![⟨⟨0,1⟩,⟨0,1⟩⟩, ⟨⟨1,2⟩,⟨0,1⟩⟩, ⟨⟨0,1⟩,⟨0,1⟩⟩, ⟨⟨0,1⟩,⟨0,1⟩⟩],
  ![⟨⟨1,2⟩,⟨0,1⟩⟩, ⟨⟨0,1⟩,⟨0,1⟩⟩, ⟨⟨0,1⟩,⟨0,1⟩⟩, ⟨⟨0,1⟩,⟨0,1⟩⟩],
  ![⟨⟨0,1⟩,⟨0,1⟩⟩, ⟨⟨0,1⟩,⟨0,1⟩⟩, ⟨⟨0,1⟩,⟨0,1⟩⟩, ⟨⟨1,2⟩,⟨0,1⟩⟩],
  ![⟨⟨0,1⟩,⟨0,1⟩⟩, ⟨⟨0,1⟩,⟨0,1⟩⟩, ⟨⟨1,2⟩,⟨0,1⟩⟩, ⟨⟨0,1⟩,⟨0,1⟩⟩]],
 ![![⟨⟨0,1⟩,⟨0,1⟩⟩, ⟨⟨0,1⟩,⟨-1,2⟩⟩, ⟨⟨0,1⟩,⟨0,1⟩⟩, ⟨⟨0,1⟩,⟨0,1⟩⟩],
  ![⟨⟨0,1⟩,⟨1,2⟩⟩, ⟨⟨0,1⟩,⟨0,1⟩⟩, ⟨⟨0,1⟩,⟨0,1⟩⟩, ⟨⟨0,1⟩,⟨0,1⟩⟩],
  ![⟨⟨0,1⟩,⟨0,1⟩⟩, ⟨⟨0,1⟩,⟨0,1⟩⟩, ⟨⟨0,1⟩,⟨0,1⟩⟩, ⟨⟨0,1⟩,⟨-1,2⟩⟩],
  ![⟨⟨0,1⟩,⟨0,1⟩⟩, ⟨⟨0,1⟩,⟨0,1⟩⟩, ⟨⟨0,1⟩,⟨1,2⟩⟩, ⟨⟨0,1⟩,⟨0,1⟩⟩]],
 ![![⟨⟨1,2⟩,⟨0,1⟩⟩, ⟨⟨0,1⟩,⟨0,1⟩⟩, ⟨⟨0,1⟩,⟨0,1⟩⟩, ⟨⟨0,1⟩,⟨0,1⟩⟩],
  ![⟨⟨0,1⟩,⟨0,1⟩⟩, ⟨⟨-1,2⟩,⟨0,1⟩⟩, ⟨⟨0,1⟩,⟨0,1⟩⟩, ⟨⟨0,1⟩,⟨0,1⟩⟩],
  ![⟨⟨0,1⟩,⟨0,1⟩⟩, ⟨⟨0,1⟩,⟨0,1⟩⟩, ⟨⟨1,2⟩,⟨0,1⟩⟩, ⟨⟨0,1⟩,⟨0,1⟩⟩],
  ![⟨⟨0,1⟩,⟨0,1⟩⟩, ⟨⟨0,1⟩,⟨0,1⟩⟩, ⟨⟨0,1⟩,⟨0,1⟩⟩, ⟨⟨-1,2⟩,⟨0,1⟩⟩]],
 ![![⟨⟨0,1⟩,⟨0,1⟩⟩, ⟨⟨0,1⟩,⟨0,1⟩⟩, ⟨⟨1,2⟩,⟨0,1⟩⟩, ⟨⟨0,1⟩,⟨0,1⟩⟩],
  ![⟨⟨0,1⟩,⟨0,1⟩⟩, ⟨⟨0,1⟩,⟨0,1⟩⟩, ⟨⟨0,1⟩,⟨0,1⟩⟩, ⟨⟨-1,2⟩,⟨0,1⟩⟩],
  ![⟨⟨1,2⟩,⟨0,1⟩⟩, ⟨⟨0,1⟩,⟨0,1⟩⟩, ⟨⟨0,1⟩,⟨0,1⟩⟩, ⟨⟨0,1⟩,⟨0,1⟩⟩],
  ![⟨⟨0,1⟩,⟨0,1⟩⟩, ⟨⟨-1,2⟩,⟨0,1⟩⟩, ⟨⟨0,1⟩,⟨0,1⟩⟩, ⟨⟨0,1⟩,⟨0,1⟩⟩]],
 ![![⟨⟨0,1⟩,⟨0,1⟩⟩, ⟨⟨0,1⟩,⟨0,1⟩⟩, ⟨⟨0,1⟩,⟨-1,2⟩⟩, ⟨⟨0,1⟩,⟨0,1⟩⟩],
  ![⟨⟨0,1⟩,⟨0,1⟩⟩, ⟨⟨0,1⟩,⟨0,1⟩⟩, ⟨⟨0,1⟩,⟨0,1⟩⟩, ⟨⟨0,1⟩,⟨1,2⟩⟩],
  ![⟨⟨0,1⟩,⟨1,2⟩⟩, ⟨⟨0,1⟩,⟨0,1⟩⟩, ⟨⟨0,1⟩,⟨0,1⟩⟩, ⟨⟨0,1⟩,⟨0,1⟩⟩],
  ![⟨⟨0,1⟩,⟨0,1⟩⟩, ⟨⟨0,1⟩,⟨-1,2⟩⟩, ⟨⟨0,1⟩,⟨0,1⟩⟩, ⟨⟨0,1⟩,⟨0,1⟩⟩]],
 ![![⟨⟨0,1⟩,⟨0,1⟩⟩, ⟨⟨1,2⟩,⟨0,1⟩⟩, ⟨⟨0,1⟩,⟨0,1⟩⟩, ⟨⟨0,1⟩,⟨0,1⟩⟩],
  ![⟨⟨1,2⟩,⟨0,1⟩⟩, ⟨⟨0,1⟩,⟨0,1⟩⟩, ⟨⟨0,1⟩,⟨0,1⟩⟩, ⟨⟨0,1⟩,⟨0,1⟩⟩],
  ![⟨⟨0,1⟩,⟨0,1⟩⟩, ⟨⟨0,1⟩,⟨0,1⟩⟩, ⟨⟨0,1⟩,⟨0,1⟩⟩, ⟨⟨-1,2⟩,⟨0,1⟩⟩],
  ![⟨⟨0,1⟩,⟨0,1⟩⟩, ⟨⟨0,1⟩,⟨0,1⟩⟩, ⟨⟨-1,2⟩,⟨0,1⟩⟩, ⟨⟨0,1⟩,⟨0,1⟩⟩]],
 ![![⟨⟨0,1⟩,⟨0,1⟩⟩, ⟨⟨0,1⟩,⟨-1,2⟩⟩, ⟨⟨0,1⟩,⟨0,1⟩⟩, ⟨⟨0,1⟩,⟨0,1⟩⟩],
  ![⟨⟨0,1⟩,⟨1,2⟩⟩, ⟨⟨0,1⟩,⟨0,1⟩⟩, ⟨⟨0,1⟩,⟨0,1⟩⟩, ⟨⟨0,1⟩,⟨0,1⟩⟩],
  ![⟨⟨0,1⟩,⟨0,1⟩⟩, ⟨⟨0,1⟩,⟨0,1⟩⟩, ⟨⟨0,1⟩,⟨0,1⟩⟩, ⟨⟨0,1⟩,⟨1,2⟩⟩],
  ![⟨⟨0,1⟩,⟨0,1⟩⟩, ⟨⟨0,1⟩,⟨0,1⟩⟩, ⟨⟨0,1⟩,⟨-1,2⟩⟩, ⟨⟨0,1⟩,⟨0,1⟩⟩]],
 ![![⟨⟨0,1⟩,⟨0,1⟩⟩, ⟨⟨0,1⟩,⟨0,1⟩⟩, ⟨⟨0,1⟩,⟨0,1⟩⟩, ⟨⟨1,2⟩,⟨0,1⟩⟩],
  ![⟨⟨0,1⟩,⟨0,1⟩⟩, ⟨⟨0,1⟩,⟨0,1⟩⟩, ⟨⟨1,2⟩,⟨0,1⟩⟩, ⟨⟨0,1⟩,⟨0,1⟩⟩],
  ![⟨⟨0,1⟩,⟨0,1⟩⟩, ⟨⟨1,2⟩,⟨0,1⟩⟩, ⟨⟨0,1⟩,⟨0,1⟩⟩, ⟨⟨0,1⟩,⟨0,1⟩⟩],
  ![⟨⟨1,2⟩,⟨0,1⟩⟩, ⟨⟨0,1⟩,⟨0,1⟩⟩, ⟨⟨0,1⟩,⟨0,1⟩⟩, ⟨⟨0,1⟩,⟨0,1⟩⟩]],
 ![![⟨⟨0,1⟩,⟨0,1⟩⟩, ⟨⟨0,1⟩,⟨0,1⟩⟩, ⟨⟨0,1⟩,⟨0,1⟩⟩, ⟨⟨0,1⟩,⟨-1,2⟩⟩],
  ![⟨⟨0,1⟩,⟨0,1⟩⟩, ⟨⟨0,1⟩,⟨0,1⟩⟩, ⟨⟨0,1⟩,⟨1,2⟩⟩, ⟨⟨0,1⟩,⟨0,1⟩⟩],
  ![⟨⟨0,1⟩,⟨0,1⟩⟩, ⟨⟨0,1⟩,⟨-1,2⟩⟩, ⟨⟨0,1⟩,⟨0,1⟩⟩, ⟨⟨0,1⟩,⟨0,1⟩⟩],
  ![⟨⟨0,1⟩,⟨1,2⟩⟩, ⟨⟨0,1⟩,⟨0,1⟩⟩, ⟨⟨0,1⟩,⟨0,1⟩⟩, ⟨⟨0,1⟩,⟨0,1⟩⟩]],
 ![![⟨⟨0,1⟩,⟨0,1⟩⟩, ⟨⟨0,1⟩,⟨0,1⟩⟩, ⟨⟨0,1⟩,⟨0,1⟩⟩, ⟨⟨0,1⟩,⟨-1,2⟩⟩],
  ![⟨⟨0,1⟩,⟨0,1⟩⟩, ⟨⟨0,1⟩,⟨0,1⟩⟩, ⟨⟨0,1⟩,⟨-1,2⟩⟩, ⟨⟨0,1⟩,⟨0,1⟩⟩],
  ![⟨⟨0,1⟩,⟨0,1⟩⟩, ⟨⟨0,1⟩,⟨1,2⟩⟩, ⟨⟨0,1⟩,⟨0,1⟩⟩, ⟨⟨0,1⟩,⟨0,1⟩⟩],
  ![⟨⟨0,1⟩,⟨1,2⟩⟩, ⟨⟨0,1⟩,⟨0,1⟩⟩, ⟨⟨0,1⟩,⟨0,1⟩⟩, ⟨⟨0,1⟩,⟨0,1⟩⟩]],
 ![![⟨⟨0,1⟩,⟨0,1⟩⟩, ⟨⟨0,1⟩,⟨0,1⟩⟩, ⟨⟨0,1⟩,⟨0,1⟩⟩, ⟨⟨-1,2⟩,⟨0,1⟩⟩],
  ![⟨⟨0,1⟩,⟨0,1⟩⟩, ⟨⟨0,1⟩,⟨0,1⟩⟩, ⟨⟨1,2⟩,⟨0,1⟩⟩, ⟨⟨0,1⟩,⟨0,1⟩⟩],
  ![⟨⟨0,1⟩,⟨0,1⟩⟩, ⟨⟨1,2⟩,⟨0,1⟩⟩, ⟨⟨0,1⟩,⟨0,1⟩⟩, ⟨⟨0,1⟩,⟨0,1⟩⟩],
  ![⟨⟨-1,2⟩,⟨0,1⟩⟩, ⟨⟨0,1⟩,⟨0,1⟩⟩, ⟨⟨0,1⟩,⟨0,1⟩⟩, ⟨⟨0,1⟩,⟨0,1⟩⟩]],
 ![![⟨⟨1,2⟩,⟨0,1⟩⟩, ⟨⟨0,1⟩,⟨0,1⟩⟩, ⟨⟨0,1⟩,⟨0,1⟩⟩, ⟨⟨0,1⟩,⟨0,1⟩⟩],
  ![⟨⟨0,1⟩,⟨0,1⟩⟩, ⟨⟨-1,2⟩,⟨0,1⟩⟩, ⟨⟨0,1⟩,⟨0,1⟩⟩, ⟨⟨0,1⟩,⟨0,1⟩⟩],
  ![⟨⟨0,1⟩,⟨0,1⟩⟩, ⟨⟨0,1⟩,⟨0,1⟩⟩, ⟨⟨-1,2⟩,⟨0,1⟩⟩, ⟨⟨0,1⟩,⟨0,1⟩⟩],
  ![⟨⟨0,1⟩,⟨0,1⟩⟩, ⟨⟨0,1⟩,⟨0,1⟩⟩, ⟨⟨0,1⟩,⟨0,1⟩⟩, ⟨⟨1,2⟩,⟨0,1⟩⟩]]]

def tiF : Fin 16 → Fin 16 → CQ :=
![![⟨⟨4,1⟩,⟨0,1⟩⟩, ⟨⟨0,1⟩,⟨0,1⟩⟩, ⟨⟨0,1⟩,⟨0,1⟩⟩, ⟨⟨0,1⟩,⟨0,1⟩⟩, ⟨⟨0,1⟩,⟨0,1⟩⟩, ⟨⟨0,1⟩,⟨0,1⟩⟩, ⟨⟨0,1⟩,⟨0,1⟩⟩, ⟨⟨0,1⟩,⟨0,1⟩⟩, ⟨⟨0,1⟩,⟨0,1⟩⟩, ⟨⟨0,1⟩,⟨0,1⟩⟩, ⟨⟨0,1⟩,⟨0,1⟩⟩, ⟨⟨0,1⟩,⟨0,1⟩⟩, ⟨⟨0,1⟩,⟨0,1⟩⟩, ⟨⟨0,1⟩,⟨0,1⟩⟩, ⟨⟨0,1⟩,⟨0,1⟩⟩, ⟨⟨0,1⟩,⟨0,1⟩⟩],
  ![⟨⟨0,1⟩,⟨0,1⟩⟩, ⟨⟨1,1⟩,⟨0,1⟩⟩, ⟨⟨0,1⟩,⟨0,1⟩⟩, ⟨⟨0,1⟩,⟨0,1⟩⟩, ⟨⟨0,1⟩,⟨0,1⟩⟩, ⟨⟨0,1⟩,⟨0,1⟩⟩, ⟨⟨0,1⟩,⟨0,1⟩⟩, ⟨⟨0,1⟩,⟨0,1⟩⟩, ⟨⟨0,1⟩,⟨0,1⟩⟩, ⟨⟨0,1⟩,⟨0,1⟩⟩, ⟨⟨0,1⟩,⟨0,1⟩⟩, ⟨⟨0,1⟩,⟨0,1⟩⟩, ⟨⟨0,1⟩,⟨0,1⟩⟩, ⟨⟨0,1⟩,⟨0,1⟩⟩, ⟨⟨0,1⟩,⟨0,1⟩⟩, ⟨⟨0,1⟩,⟨0,1⟩⟩],
  ![⟨⟨0,1⟩,⟨0,1⟩⟩, ⟨⟨0,1⟩,⟨0,1⟩⟩, ⟨⟨1,1⟩,⟨0,1⟩⟩, ⟨⟨0,1⟩,⟨0,1⟩⟩, ⟨⟨0,1⟩,⟨0,1⟩⟩, ⟨⟨0,1⟩,⟨0,1⟩⟩, ⟨⟨0,1⟩,⟨0,1⟩⟩, ⟨⟨0,1⟩,⟨0,1⟩⟩, ⟨⟨0,1⟩,⟨0,1⟩⟩, ⟨⟨0,1⟩,⟨0,1⟩⟩, ⟨⟨0,1⟩,⟨0,1⟩⟩, ⟨⟨0,1⟩,⟨0,1⟩⟩, ⟨⟨0,1⟩,⟨0,1⟩⟩, ⟨⟨0,1⟩,⟨0,1⟩⟩, ⟨⟨0,1⟩,⟨0,1⟩⟩, ⟨⟨0,1⟩,⟨0,1⟩⟩],
  ![⟨⟨0,1⟩,⟨0,1⟩⟩, ⟨⟨0,1⟩,⟨0,1⟩⟩, ⟨⟨0,1⟩,⟨0,1⟩⟩, ⟨⟨1,1⟩,⟨0,1⟩⟩, ⟨⟨0,1⟩,⟨0,1⟩⟩, ⟨⟨0,1⟩,⟨0,1⟩⟩, ⟨⟨0,1⟩,⟨0,1⟩⟩, ⟨⟨0,1⟩,⟨0,1⟩⟩, ⟨⟨0,1⟩,⟨0,1⟩⟩, ⟨⟨0,1⟩,⟨0,1⟩⟩, ⟨⟨0,1⟩,⟨0,1⟩⟩, ⟨⟨0,1⟩,⟨0,1⟩⟩, ⟨⟨0,1⟩,⟨0,1⟩⟩, ⟨⟨0,1⟩,⟨0,1⟩⟩, ⟨⟨0,1⟩,⟨0,1⟩⟩, ⟨⟨0,1⟩,⟨0,1⟩⟩],
  ![⟨⟨0,1⟩,⟨0,1⟩⟩, ⟨⟨0,1⟩,⟨0,1⟩⟩, ⟨⟨0,1⟩,⟨0,1⟩⟩, ⟨⟨0,1⟩,⟨0,1⟩⟩, ⟨⟨1,1⟩,⟨0,1⟩⟩, ⟨⟨0,1⟩,⟨0,1⟩⟩, ⟨⟨0,1⟩,⟨0,1⟩⟩, ⟨⟨0,1⟩,⟨0,1⟩⟩, ⟨⟨0,1⟩,⟨0,1⟩⟩, ⟨⟨0,1⟩,⟨0,1⟩⟩, ⟨⟨0,1⟩,⟨0,1⟩⟩, ⟨⟨0,1⟩,⟨0,1⟩⟩, ⟨⟨0,1⟩,⟨0,1⟩⟩, ⟨⟨0,1⟩,⟨0,1⟩⟩, ⟨⟨0,1⟩,⟨0,1⟩⟩, ⟨⟨0,1⟩,⟨0,1⟩⟩],
  ![⟨⟨0,1⟩,⟨0,1⟩⟩, ⟨⟨0,1⟩,⟨0,1⟩⟩, ⟨⟨0,1⟩,⟨0,1⟩⟩, ⟨⟨0,1⟩,⟨0,1⟩⟩, ⟨⟨0,1⟩,⟨0,1⟩⟩, ⟨⟨1,1⟩,⟨0,1⟩⟩, ⟨⟨0,1⟩,⟨0,1⟩⟩, ⟨⟨0,1⟩,⟨0,1⟩⟩, ⟨⟨0,1⟩,⟨0,1⟩⟩, ⟨⟨0,1⟩,⟨0,1⟩⟩, ⟨⟨0,1⟩,⟨0,1⟩⟩, ⟨⟨0,1⟩,⟨0,1⟩⟩, ⟨⟨0,1⟩,⟨0,1⟩⟩, ⟨⟨0,1⟩,⟨0,1⟩⟩, ⟨⟨0,1⟩,⟨0,1⟩⟩, ⟨⟨0,1⟩,⟨0,1⟩⟩],
  ![⟨⟨0,1⟩,⟨0,1⟩⟩, ⟨⟨0,1⟩,⟨0,1⟩⟩, ⟨⟨0,1⟩,⟨0,1⟩⟩, ⟨⟨0,1⟩,⟨0,1⟩⟩, ⟨⟨0,1⟩,⟨0,1⟩⟩, ⟨⟨0,1⟩,⟨0,1⟩⟩, ⟨⟨1,1⟩,⟨0,1⟩⟩, ⟨⟨0,1⟩,⟨0,1⟩⟩, ⟨⟨0,1⟩,⟨0,1⟩⟩, ⟨⟨0,1⟩,⟨0,1⟩⟩, ⟨⟨0,1⟩,⟨0,1⟩⟩, ⟨⟨0,1⟩,⟨0,1⟩⟩, ⟨⟨0,1⟩,⟨0,1⟩⟩, ⟨⟨0,1⟩,⟨0,1⟩⟩, ⟨⟨0,1⟩,⟨0,1⟩⟩, ⟨⟨0,1⟩,⟨0,1⟩⟩],
  ![⟨⟨0,1⟩,⟨0,1⟩⟩, ⟨⟨0,1⟩,⟨0,1⟩⟩, ⟨⟨0,1⟩,⟨0,1⟩⟩, ⟨⟨0,1⟩,⟨0,1⟩⟩, ⟨⟨0,1⟩,⟨0,1⟩⟩, ⟨⟨0,1⟩,⟨0,1⟩⟩, ⟨⟨0,1⟩,⟨0,1⟩⟩, ⟨⟨1,1⟩,⟨0,1⟩⟩, ⟨⟨0,1⟩,⟨0,1⟩⟩, ⟨⟨0,1⟩,⟨0,1⟩⟩, ⟨⟨0,1⟩,⟨0,1⟩⟩, ⟨⟨0,1⟩,⟨0,1⟩⟩, ⟨⟨0,1⟩,⟨0,1⟩⟩, ⟨⟨0,1⟩,⟨0,1⟩⟩, ⟨⟨0,1⟩,⟨0,1⟩⟩, ⟨⟨0,1⟩,⟨0,1⟩⟩],
  ![⟨⟨0,1⟩,⟨0,1⟩⟩, ⟨⟨0,1⟩,⟨0,1⟩⟩, ⟨⟨0,1⟩,⟨0,1⟩⟩, ⟨⟨0,1⟩,⟨0,1⟩⟩, ⟨⟨0,1⟩,⟨0,1⟩⟩, ⟨⟨0,1⟩,⟨0,1⟩⟩, ⟨⟨0,1⟩,⟨0,1⟩⟩, ⟨⟨0,1⟩,⟨0,1⟩⟩, ⟨⟨1,1⟩,⟨0,1⟩⟩, ⟨⟨0,1⟩,⟨0,1⟩⟩, ⟨⟨0,1⟩,⟨0,1⟩⟩, ⟨⟨0,1⟩,⟨0,1⟩⟩, ⟨⟨0,1⟩,⟨0,1⟩⟩, ⟨⟨0,1⟩,⟨0,1⟩⟩, ⟨⟨0,1⟩,⟨0,1⟩⟩, ⟨⟨0,1⟩,⟨0,1⟩⟩],
  ![⟨⟨0,1⟩,⟨0,1⟩⟩, ⟨⟨0,1⟩,⟨0,1⟩⟩, ⟨⟨0,1⟩,⟨0,1⟩⟩, ⟨⟨0,1⟩,⟨0,1⟩⟩, ⟨⟨0,1⟩,⟨0,1⟩⟩, ⟨⟨0,1⟩,⟨0,1⟩⟩, ⟨⟨0,1⟩,⟨0,1⟩⟩, ⟨⟨0,1⟩,⟨0,1⟩⟩, ⟨⟨0,1⟩,⟨0,1⟩⟩, ⟨⟨1,1⟩,⟨0,1⟩⟩, ⟨⟨0,1⟩,⟨0,1⟩⟩, ⟨⟨0,1⟩,⟨0,1⟩⟩, ⟨⟨0,1⟩,⟨0,1⟩⟩, ⟨⟨0,1⟩,⟨0,1⟩⟩, ⟨⟨0,1⟩,⟨0,1⟩⟩, ⟨⟨0,1⟩,⟨0,1⟩⟩],
  ![⟨⟨0,1⟩,⟨0,1⟩⟩, ⟨⟨0,1⟩,⟨0,1⟩⟩, ⟨⟨0,1⟩,⟨0,1⟩⟩, ⟨⟨0,1⟩,⟨0,1⟩⟩, ⟨⟨0,1⟩,⟨0,1⟩⟩, ⟨⟨0,1⟩,⟨0,1⟩⟩, ⟨⟨0,1⟩,⟨0,1⟩⟩, ⟨⟨0,1⟩,⟨0,1⟩⟩, ⟨⟨0,1⟩,⟨0,1⟩⟩, ⟨⟨0,1⟩,⟨0,1⟩⟩, ⟨⟨1,1⟩,⟨0,1⟩⟩, ⟨⟨0,1⟩,⟨0,1⟩⟩, ⟨⟨0,1⟩,⟨0,1⟩⟩, ⟨⟨0,1⟩,⟨0,1⟩⟩, ⟨⟨0,1⟩,⟨0,1⟩⟩, ⟨⟨0,1⟩,⟨0,1⟩⟩],
  ![⟨⟨0,1⟩,⟨0,1⟩⟩, ⟨⟨0,1⟩,⟨0,1⟩⟩, ⟨⟨0,1⟩,⟨0,1⟩⟩, ⟨⟨0,1⟩,⟨0,1⟩⟩, ⟨⟨0,1⟩,⟨0,1⟩⟩, ⟨⟨0,1⟩,⟨0,1⟩⟩, ⟨⟨0,1⟩,⟨0,1⟩⟩, ⟨⟨0,1⟩,⟨0,1⟩⟩, ⟨⟨0,1⟩,⟨0,1⟩⟩, ⟨⟨0,1⟩,⟨0,1⟩⟩, ⟨⟨0,1⟩,⟨0,1⟩⟩, ⟨⟨1,1⟩,⟨0,1⟩⟩, ⟨⟨0,1⟩,⟨0,1⟩⟩, ⟨⟨0,1⟩,⟨0,1⟩⟩, ⟨⟨0,1⟩,⟨0,1⟩⟩, ⟨⟨0,1⟩,⟨0,1⟩⟩],
  ![⟨⟨0,1⟩,⟨0,1⟩⟩, ⟨⟨0,1⟩,⟨0,1⟩⟩, ⟨⟨0,1⟩,⟨0,1⟩⟩, ⟨⟨0,1⟩,⟨0,1⟩⟩, ⟨⟨0,1⟩,⟨0,1⟩⟩, ⟨⟨0,1⟩,⟨0,1⟩⟩, ⟨⟨0,1⟩,⟨0,1⟩⟩, ⟨⟨0,1⟩,⟨0,1⟩⟩, ⟨⟨0,1⟩,⟨0,1⟩⟩, ⟨⟨0,1⟩,⟨0,1⟩⟩, ⟨⟨0,1⟩,⟨0,1⟩⟩, ⟨⟨0,1⟩,⟨0,1⟩⟩, ⟨⟨1,1⟩,⟨0,1⟩⟩, ⟨⟨0,1⟩,⟨0,1⟩⟩, ⟨⟨0,1⟩,⟨0,1⟩⟩, ⟨⟨0,1⟩,⟨0,1⟩⟩],
  ![⟨⟨0,1⟩,⟨0,1⟩⟩, ⟨⟨0,1⟩,⟨0,1⟩⟩, ⟨⟨0,1⟩,⟨0,1⟩⟩, ⟨⟨0,1⟩,⟨0,1⟩⟩, ⟨⟨0,1⟩,⟨0,1⟩⟩, ⟨⟨0,1⟩,⟨0,1⟩⟩, ⟨⟨0,1⟩,⟨0,1⟩⟩, ⟨⟨0,1⟩,⟨0,1⟩⟩, ⟨⟨0,1⟩,⟨0,1⟩⟩, ⟨⟨0,1⟩,⟨0,1⟩⟩, ⟨⟨0,1⟩,⟨0,1⟩⟩, ⟨⟨0,1⟩,⟨0,1⟩⟩, ⟨⟨0,1⟩,⟨0,1⟩⟩, ⟨⟨1,1⟩,⟨0,1⟩⟩, ⟨⟨0,1⟩,⟨0,1⟩⟩, ⟨⟨0,1⟩,⟨0,1⟩⟩],
  ![⟨⟨0,1⟩,⟨0,1⟩⟩, ⟨⟨0,1⟩,⟨0,1⟩⟩, ⟨⟨0,1⟩,⟨0,1⟩⟩, ⟨⟨0,1⟩,⟨0,1⟩⟩, ⟨⟨0,1⟩,⟨0,1⟩⟩, ⟨⟨0,1⟩,⟨0,1⟩⟩, ⟨⟨0,1⟩,⟨0,1⟩⟩, ⟨⟨0,1⟩,⟨0,1⟩⟩, ⟨⟨0,1⟩,⟨0,1⟩⟩, ⟨⟨0,1⟩,⟨0,1⟩⟩, ⟨⟨0,1⟩,⟨0,1⟩⟩, ⟨⟨0,1⟩,⟨0,1⟩⟩, ⟨⟨0,1⟩,⟨0,1⟩⟩, ⟨⟨0,1⟩,⟨0,1⟩⟩, ⟨⟨1,1⟩,⟨0,1⟩⟩, ⟨⟨0,1⟩,⟨0,1⟩⟩],
  ![⟨⟨0,1⟩,⟨0,1⟩⟩, ⟨⟨0,1⟩,⟨0,1⟩⟩, ⟨⟨0,1⟩,⟨0,1⟩⟩, ⟨⟨0,1⟩,⟨0,1⟩⟩, ⟨⟨0,1⟩,⟨0,1⟩⟩, ⟨⟨0,1⟩,⟨0,1⟩⟩, ⟨⟨0,1⟩,⟨0,1⟩⟩, ⟨⟨0,1⟩,⟨0,1⟩⟩, ⟨⟨0,1⟩,⟨0,1⟩⟩, ⟨⟨0,1⟩,⟨0,1⟩⟩, ⟨⟨0,1⟩,⟨0,1⟩⟩, ⟨⟨0,1⟩,⟨0,1⟩⟩, ⟨⟨0,1⟩,⟨0,1⟩⟩, ⟨⟨0,1⟩,⟨0,1⟩⟩, ⟨⟨0,1⟩,⟨0,1⟩⟩, ⟨⟨1,1⟩,⟨0,1⟩⟩]]

/-!
The Wigner rotation matrix, from the second script.
-/

/- The m prime and m values, in the fixed descending order. -/
def plus_to_minus_two : Fin 5 → ℤ := ![2, 1, 0, -1, -2]

open Real in
/- The reduced Wigner functions taken from table 2.4 in Ref.1 of the script,
arranged in a 5x5 matrix, one closed formula in beta per entry. -/
noncomputable def red_wig (b : ℝ) : Matrix (Fin 5) (Fin 5) ℝ :=
  !![cos (b/2)^4, -sin b*(1+cos b)/2, sqrt (3/8)*sin b^2, -sin b*(1-cos b)/2, sin (b/2)^4;
     sin b*(1+cos b)/2, (2*cos b-1)*(1+cos b)/2, -sqrt (3/2)*sin b*cos b, (2*cos b+1)*(1-cos b)/2, -sin b*(1-cos b)/2;
     sqrt (3/8)*sin b^2, sqrt (3/2)*sin b*cos b, (3*cos b^2-1)/2, -sqrt (3/2)*sin b*cos b, sqrt (3/8)*sin b^2;
     sin b*(1-cos b)/2, (2*cos b+1)*(1-cos b)/2, sqrt (3/2)*sin b*cos b, (2*cos b-1)*(1+cos b)/2, -sin b*(1+cos b)/2;
     sin (b/2)^4, sin b*(1-cos b)/2, sqrt (3/8)*sin b^2, sin b*(1+cos b)/2, cos (b/2)^4]

/- The 5x5 rank-2 Wigner matrix for the euler angle triplet
(alpha, beta, gamma): entry (row, col) multiplies the reduced Wigner function
at beta by the phases exp(-i mp alpha) and exp(-i m gamma). -/
noncomputable def generate_wigner (t : ℝ × ℝ × ℝ) : Matrix (Fin 5) (Fin 5) ℂ :=
  Matrix.of fun row col =>
    Complex.exp (-Complex.I * ((plus_to_minus_two row : ℤ) : ℂ) * ((t.1 : ℝ) : ℂ)) *
      ((red_wig t.2.1 row col : ℝ) : ℂ) *
      Complex.exp (-Complex.I * ((plus_to_minus_two col : ℤ) : ℂ) * ((t.2.2 : ℝ) : ℂ))

/-!
The Hamiltonian builder described by the specification.
-/

/- Modelled from the spec: the error taxonomy of buildHamiltonian; the script
itself hard-codes the example Hamiltonian and has no label-driven builder, so
the error kind InvalidLabel is taken from the specification. -/
inductive BuildError where
  | InvalidLabel : String → BuildError
deriving DecidableEq

/- Modelled from the spec: the named set of the 16 product-operator labels,
each mapped to its 4x4 product operator; unknown labels map to none. -/
def opOfLabel (l : String) : Option (Fin 4 → Fin 4 → CQ) :=
  if l = "E" then some E
  else if l = "Ix" then some pIx
  else if l = "Iy" then some pIy
  else if l = "Iz" then some pIz
  else if l = "Sx" then some pSx
  else if l = "Sy" then some pSy
  else if l = "Sz" then some pSz
  else if l = "IxSz" then some pIxSz
  else if l = "IySz" then some pIySz
  else if l = "IzSx" then some pIzSx
  else if l = "IzSy" then some pIzSy
  else if l = "IxSx" then some pIxSx
  else if l = "IxSy" then some pIxSy
  else if l = "IySx" then some pIySx
  else if l = "IySy" then some pIySy
  else if l = "IzSz" then some pIzSz
  else none

/- Modelled from the spec: buildHamiltonian takes a mapping from labels to
real (here exact rational) coefficients and returns the coefficient-weighted
sum of the corresponding product operators, or signals InvalidLabel on the
first unrecognized label; no partial Hamiltonian is produced on error. -/
def buildHamiltonian : List (String × Q2) → Except BuildError (Fin 4 → Fin 4 → CQ)
  | [] => .ok (fun _ _ => 0)
  | (l, c) :: rest =>
    match opOfLabel l with
    | none => .error (.InvalidLabel l)
    | some P =>
      match buildHamiltonian rest with
      | .error e => .error e
      | .ok M => .ok (sm ⟨c, ⟨0, 1⟩⟩ P + M)

/- Modelled from the spec: the coefficient-weighted sum of the product
operators named by a coefficient list (unrecognized labels contribute zero);
labels absent from the list contribute nothing, so unspecified coefficients
default to zero. -/
def hamSum : List (String × Q2) → Fin 4 → Fin 4 → CQ
  | [] => fun _ _ => 0
  | (l, c) :: rest => sm ⟨c, ⟨0, 1⟩⟩ ((opOfLabel l).getD (fun _ _ => 0)) + hamSum rest

/-!
Denotation bridges: facts about the numerator and denominator of a canonical
fraction determine its rational value.
-/

theorem Q2.val_of_num_zero (a : Q2) (h : a.num = 0) : a.val = 0 := by
  simp [Q2.val, h]

theorem Q2.val_of_cross (a : Q2) (k : ℤ) (h1 : a.num = k * a.den) (h2 : a.den ≠ 0) :
    a.val = (k : ℚ) := by
  rw [Q2.val, h1]
  push_cast
  field_simp

theorem Q2.val_ne_zero (a : Q2) (h1 : a.num ≠ 0) (h2 : a.den ≠ 0) : a.val ≠ 0 :=
  div_ne_zero (Int.cast_ne_zero.2 h1) (Int.cast_ne_zero.2 h2)

theorem CQ.val_re (z : CQ) : (CQ.val z).re = ((z.re.val : ℚ) : ℝ) := rfl

theorem CQ.val_im (z : CQ) : (CQ.val z).im = ((z.im.val : ℚ) : ℝ) := rfl

theorem CQ.val_re_zero (z : CQ) (h : z.re.num = 0) : (CQ.val z).re = 0 := by
  rw [CQ.val_re, Q2.val_of_num_zero z.re h]
  norm_num

theorem CQ.val_zero (z : CQ) (h1 : z.re.num = 0) (h2 : z.im.num = 0) : CQ.val z = 0 := by
  apply Complex.ext
  · exact CQ.val_re_zero z h1
  · rw [CQ.val_im, Q2.val_of_num_zero z.im h2]
    norm_num

theorem CQ.val_ne_zero_of_re (z : CQ) (h1 : z.re.num ≠ 0) (h2 : z.re.den ≠ 0) :
    CQ.val z ≠ 0 := by
  intro h
  have hre : (CQ.val z).re = 0 := by rw [h]; rfl
  rw [CQ.val_re] at hre
  exact Q2.val_ne_zero z.re h1 h2 (by exact_mod_cast hre)

theorem CQ.val_intCast (z : CQ) (k : ℤ) (h1 : z.re.num = k * z.re.den)
    (h2 : z.re.den ≠ 0) (h3 : z.im.num = 0) : CQ.val z = (k : ℂ) := by
  apply Complex.ext
  · rw [CQ.val_re, Q2.val_of_cross z.re k h1 h2]
    simp
  · rw [CQ.val_im, Q2.val_of_num_zero z.im h3]
    simp

/-!
The double loop of section 3 of the script fills every entry of the zero
matrix exactly once with the projection formula.
-/

theorem fill_row (f : Fin 16 → Fin 16 → CQ) (r : Fin 16) (l : List (Fin 16))
    (M : Fin 16 → Fin 16 → CQ) (i j : Fin 16) :
    (l.foldl (fun M2 c => update M2 r c (f r c)) M) i j =
      if i = r ∧ j ∈ l then f r j else M i j := by
  induction l generalizing M with
  | nil => simp
  | cons a l ih =>
    rw [List.foldl_cons, ih]
    by_cases h1 : i = r
    · by_cases h2 : j ∈ l
      · simp [h1, h2, update]
      · by_cases h3 : j = a
        · simp [h1, h2, h3, update]
        · simp [h1, h2, h3, update]
    · simp [h1, update]

theorem fill_all (f : Fin 16 → Fin 16 → CQ) (l : List (Fin 16))
    (M : Fin 16 → Fin 16 → CQ) (i j : Fin 16) :
    (l.foldl (fun M2 r => (List.finRange 16).foldl
        (fun M3 c => update M3 r c (f r c)) M2) M) i j =
      if i ∈ l then f i j else M i j := by
  induction l generalizing M with
  | nil => simp
  | cons a l ih =>
    rw [List.foldl_cons, ih]
    by_cases h1 : i ∈ l
    · simp [h1]
    · by_cases h2 : i = a
      · simp [h1, h2, fill_row, List.mem_finRange]
      · simp [h1, h2, fill_row]

theorem hsp_fill (r c : Fin 16) :
    Hsp r c = dot (vector_operators r) (matVec Hs (vector_operators c)) /
      dot (vector_operators r) (vector_operators r) := by
  have h := fill_all
    (fun r c => dot (vector_operators r) (matVec Hs (vector_operators c)) /
      dot (vector_operators r) (vector_operators r))
    (List.finRange 16) (fun _ _ => 0) r c
  simpa [List.mem_finRange] using h

/-!
Stage evaluations: each computation stage of the pipeline equals its literal
table, by exhaustive exact-arithmetic evaluation.
-/

theorem H_entries : ∀ i j : Fin 4, H i j = HF i j := by decide

theorem E_entries : ∀ i j : Fin 4, E i j = EF i j := by decide

theorem H_eval : H = HF := funext fun i => funext fun j => H_entries i j

theorem E_eval : E = EF := funext fun i => funext fun j => E_entries i j

theorem Hs_via_literals :
    Hs = msub (kron4 HF (mtrans EF)) (kron4 EF (mtrans HF)) := by
  unfold Hs
  rw [H_eval, E_eval]

theorem Hs_entries :
    ∀ i j : Fin 16, msub (kron4 HF (mtrans EF)) (kron4 EF (mtrans HF)) i j = HsF i j := by
  decide

theorem Hs_eval : Hs = HsF :=
  Hs_via_literals.trans (funext fun i => funext fun j => Hs_entries i j)

theorem vop_entries : ∀ i k : Fin 16, vector_operators i k = vopF i k := by decide

theorem vop_eval : vector_operators = vopF :=
  funext fun i => funext fun k => vop_entries i k

theorem dd_entries : ∀ r : Fin 16, dot (vopF r) (vopF r) = ddF r := by decide

theorem mv_entries : ∀ c r2 : Fin 16, matVec HsF (vopF c) r2 = mvF c r2 := by decide

theorem mv_eval (c : Fin 16) : matVec HsF (vopF c) = mvF c :=
  funext fun r2 => mv_entries c r2

theorem hsp_re_num : ∀ r c : Fin 16, (dot (vopF r) (mvF c) / ddF r).re.num = 0 := by
  decide

theorem hsp_diag_num :
    ∀ r : Fin 16, (dot (vopF r) (mvF r) / ddF r).re.num = 0 ∧
      (dot (vopF r) (mvF r) / ddF r).im.num = 0 := by
  decide

theorem dd_facts : ∀ r : Fin 16, (ddF r).re.num ≠ 0 ∧ (ddF r).re.den ≠ 0 := by decide

theorem prod_entries : ∀ a : Fin 16, ∀ i j : Fin 4, prodOps a i j = prodF a i j := by
  decide

theorem prod_eval (a : Fin 16) : prodOps a = prodF a :=
  funext fun i => funext fun j => prod_entries a i j

theorem ti_entries : ∀ a b : Fin 16, traceInner (prodF a) (prodF b) = tiF a b := by
  decide

theorem ti_offdiag : ∀ a b : Fin 16, a ≠ b →
    (tiF a b).re.num = 0 ∧ (tiF a b).im.num = 0 := by decide

theorem ti_diag : ∀ a : Fin 16,
    (tiF a a).re.num = (if a = 0 then 4 else 1) * (tiF a a).re.den ∧
      (tiF a a).re.den ≠ 0 ∧ (tiF a a).im.num = 0 := by decide

theorem traceInner_eval (a b : Fin 16) : traceInner (prodOps a) (prodOps b) = tiF a b := by
  rw [prod_eval a, prod_eval b, ti_entries a b]

theorem red_wig_orth (b : ℝ) (r c : Fin 5) :
    (Finset.univ.sum fun k => red_wig b r k * red_wig b c k) =
      if r = c then 1 else 0 := by
  have hp : Real.sqrt (3/2) = 2 * Real.sqrt (3/8) := by
    rw [show (3/2 : ℝ) = 4 * (3/8) by norm_num,
      Real.sqrt_mul (by norm_num : (0:ℝ) ≤ 4),
      show Real.sqrt 4 = 2 by
        rw [show (4:ℝ) = 2^2 by norm_num, Real.sqrt_sq (by norm_num : (0:ℝ) ≤ 2)]]
  have hx : Real.cos (b/2)^2 = 1/2 + Real.cos b/2 := by
    have h := Real.cos_sq (b/2)
    rwa [show 2*(b/2) = b by ring] at h
  have hy : Real.sin (b/2)^2 = 1/2 - Real.cos b/2 := by
    have h := Real.sin_sq_eq_half_sub (b/2)
    rwa [show 2*(b/2) = b by ring] at h
  have hq : Real.sqrt (3/8)^2 = 3/8 := Real.sq_sqrt (by norm_num)
  have hs : Real.sin b^2 = 1 - Real.cos b^2 := Real.sin_sq b
  fin_cases r <;> fin_cases c <;>
    simp only [red_wig, Fin.sum_univ_five, Fin.isValue, Fin.reduceFinMk,
      Matrix.cons_val_zero, Matrix.cons_val_one, Matrix.head_cons,
      Matrix.cons_val_two, Matrix.cons_val_three, Matrix.cons_val_four,
      Matrix.tail_cons, Matrix.head_fin_const,
      Matrix.cons_val_fin_one, Matrix.of_apply, Fin.reduceEq, reduceIte]
  · linear_combination ((1/8 : ℝ) + (1/4 : ℝ) * Real.cos (b/2) ^ 2 + (1/2 : ℝ) * Real.cos (b/2) ^ 4 + 1 * Real.cos (b/2) ^ 6 + (3/8 : ℝ) * Real.cos b + (1/2 : ℝ) * Real.cos b * Real.cos (b/2) ^ 2 + (1/2 : ℝ) * Real.cos b * Real.cos (b/2) ^ 4 + (3/8 : ℝ) * Real.cos b ^ 2 + (1/4 : ℝ) * Real.cos b ^ 2 * Real.cos (b/2) ^ 2 + (1/8 : ℝ) * Real.cos b ^ 3) * hx + ((1/8 : ℝ) + (1/4 : ℝ) * Real.sin (b/2) ^ 2 + (1/2 : ℝ) * Real.sin (b/2) ^ 4 + 1 * Real.sin (b/2) ^ 6 + (-3/8 : ℝ) * Real.cos b + (-1/2 : ℝ) * Real.cos b * Real.sin (b/2) ^ 2 + (-1/2 : ℝ) * Real.cos b * Real.sin (b/2) ^ 4 + (3/8 : ℝ) * Real.cos b ^ 2 + (1/4 : ℝ) * Real.cos b ^ 2 * Real.sin (b/2) ^ 2 + (-1/8 : ℝ) * Real.cos b ^ 3) * hy + (1 * Real.sin b ^ 4) * hq + ((7/8 : ℝ) + (1/8 : ℝ) * Real.cos b ^ 2 + (3/8 : ℝ) * Real.sin b ^ 2) * hs
  · linear_combination (-1 * Real.sin b ^ 3 * Real.cos b * Real.sqrt (3/8)) * hp + ((1/4 : ℝ) * Real.sin b + (1/2 : ℝ) * Real.sin b * Real.cos (b/2) ^ 2 + (1/2 : ℝ) * Real.sin b * Real.cos b + (1/2 : ℝ) * Real.sin b * Real.cos b * Real.cos (b/2) ^ 2 + (1/4 : ℝ) * Real.sin b * Real.cos b ^ 2) * hx + ((-1/4 : ℝ) * Real.sin b + (-1/2 : ℝ) * Real.sin b * Real.sin (b/2) ^ 2 + (1/2 : ℝ) * Real.sin b * Real.cos b + (1/2 : ℝ) * Real.sin b * Real.cos b * Real.sin (b/2) ^ 2 + (-1/4 : ℝ) * Real.sin b * Real.cos b ^ 2) * hy + (-2 * Real.sin b ^ 3 * Real.cos b) * hq + ((-3/4 : ℝ) * Real.sin b * Real.cos b) * hs
  · linear_combination (-1 * Real.sin b ^ 2 * Real.cos b ^ 2) * hp + ((1/2 : ℝ) * Real.sin b ^ 2 * Real.sqrt (3/8) + 1 * Real.sin b ^ 2 * Real.cos (b/2) ^ 2 * Real.sqrt (3/8) + (1/2 : ℝ) * Real.sin b ^ 2 * Real.cos b * Real.sqrt (3/8)) * hx + ((1/2 : ℝ) * Real.sin b ^ 2 * Real.sqrt (3/8) + 1 * Real.sin b ^ 2 * Real.sin (b/2) ^ 2 * Real.sqrt (3/8) + (-1/2 : ℝ) * Real.sin b ^ 2 * Real.cos b * Real.sqrt (3/8)) * hy
  · linear_combination (1 * Real.sin b ^ 3 * Real.cos b * Real.sqrt (3/8)) * hp + ((1/4 : ℝ) * Real.sin b + (1/2 : ℝ) * Real.sin b * Real.cos (b/2) ^ 2 + (-1/2 : ℝ) * Real.sin b * Real.cos b * Real.cos (b/2) ^ 2 + (-1/4 : ℝ) * Real.sin b * Real.cos b ^ 2) * hx + ((-1/4 : ℝ) * Real.sin b + (-1/2 : ℝ) * Real.sin b * Real.sin (b/2) ^ 2 + (-1/2 : ℝ) * Real.sin b * Real.cos b * Real.sin (b/2) ^ 2 + (1/4 : ℝ) * Real.sin b * Real.cos b ^ 2) * hy + (2 * Real.sin b ^ 3 * Real.cos b) * hq + ((3/4 : ℝ) * Real.sin b * Real.cos b) * hs
  · linear_combination (1 * Real.sin (b/2) ^ 4 + 2 * Real.cos (b/2) ^ 2 * Real.sin (b/2) ^ 4 + 1 * Real.cos b * Real.sin (b/2) ^ 4) * hx + ((1/4 : ℝ) + (1/2 : ℝ) * Real.sin (b/2) ^ 2 + (1/4 : ℝ) * Real.cos b + 1 * Real.cos b * Real.sin (b/2) ^ 2 + (-1/4 : ℝ) * Real.cos b ^ 2 + (1/2 : ℝ) * Real.cos b ^ 2 * Real.sin (b/2) ^ 2 + (-1/4 : ℝ) * Real.cos b ^ 3) * hy + (1 * Real.sin b ^ 4) * hq + ((-1/8 : ℝ) + (1/8 : ℝ) * Real.cos b ^ 2 + (3/8 : ℝ) * Real.sin b ^ 2) * hs
  · linear_combination (-1 * Real.sin b ^ 3 * Real.cos b * Real.sqrt (3/8)) * hp + ((1/4 : ℝ) * Real.sin b + (1/2 : ℝ) * Real.sin b * Real.cos (b/2) ^ 2 + (1/2 : ℝ) * Real.sin b * Real.cos b + (1/2 : ℝ) * Real.sin b * Real.cos b * Real.cos (b/2) ^ 2 + (1/4 : ℝ) * Real.sin b * Real.cos b ^ 2) * hx + ((-1/4 : ℝ) * Real.sin b + (-1/2 : ℝ) * Real.sin b * Real.sin (b/2) ^ 2 + (1/2 : ℝ) * Real.sin b * Real.cos b + (1/2 : ℝ) * Real.sin b * Real.cos b * Real.sin (b/2) ^ 2 + (-1/4 : ℝ) * Real.sin b * Real.cos b ^ 2) * hy + (-2 * Real.sin b ^ 3 * Real.cos b) * hq + ((-3/4 : ℝ) * Real.sin b * Real.cos b) * hs
  · linear_combination (1 * Real.sin b ^ 2 * Real.cos b ^ 2 * Real.sqrt (3/2) + 2 * Real.sin b ^ 2 * Real.cos b ^ 2 * Real.sqrt (3/8)) * hp + (4 * Real.sin b ^ 2 * Real.cos b ^ 2) * hq + ((1/2 : ℝ) + 2 * Real.cos b ^ 2) * hs
  · linear_combination ((-1/2 : ℝ) * Real.sin b * Real.cos b + (1/2 : ℝ) * Real.sin b * Real.cos b ^ 3) * hp + (1 * Real.sin b * Real.cos b * Real.sqrt (3/8)) * hs
  · linear_combination (-1 * Real.sin b ^ 2 * Real.cos b ^ 2 * Real.sqrt (3/2) + -2 * Real.sin b ^ 2 * Real.cos b ^ 2 * Real.sqrt (3/8)) * hp + (-4 * Real.sin b ^ 2 * Real.cos b ^ 2) * hq + ((1/2 : ℝ) + -2 * Real.cos b ^ 2) * hs
  · linear_combination (-1 * Real.sin b ^ 3 * Real.cos b * Real.sqrt (3/8)) * hp + ((-1/4 : ℝ) * Real.sin b + (-1/2 : ℝ) * Real.sin b * Real.cos (b/2) ^ 2 + (1/2 : ℝ) * Real.sin b * Real.cos b * Real.cos (b/2) ^ 2 + (1/4 : ℝ) * Real.sin b * Real.cos b ^ 2) * hx + ((1/4 : ℝ) * Real.sin b + (1/2 : ℝ) * Real.sin b * Real.sin (b/2) ^ 2 + (1/2 : ℝ) * Real.sin b * Real.cos b * Real.sin (b/2) ^ 2 + (-1/4 : ℝ) * Real.sin b * Real.cos b ^ 2) * hy + (-2 * Real.sin b ^ 3 * Real.cos b) * hq + ((-3/4 : ℝ) * Real.sin b * Real.cos b) * hs
  · linear_combination (-1 * Real.sin b ^ 2 * Real.cos b ^ 2) * hp + ((1/2 : ℝ) * Real.sin b ^ 2 * Real.sqrt (3/8) + 1 * Real.sin b ^ 2 * Real.cos (b/2) ^ 2 * Real.sqrt (3/8) + (1/2 : ℝ) * Real.sin b ^ 2 * Real.cos b * Real.sqrt (3/8)) * hx + ((1/2 : ℝ) * Real.sin b ^ 2 * Real.sqrt (3/8) + 1 * Real.sin b ^ 2 * Real.sin (b/2) ^ 2 * Real.sqrt (3/8) + (-1/2 : ℝ) * Real.sin b ^ 2 * Real.cos b * Real.sqrt (3/8)) * hy
  · linear_combination ((-1/2 : ℝ) * Real.sin b * Real.cos b + (1/2 : ℝ) * Real.sin b * Real.cos b ^ 3) * hp + (1 * Real.sin b * Real.cos b * Real.sqrt (3/8)) * hs
  · linear_combination (2 * Real.sin b ^ 2 * Real.cos b ^ 2 * Real.sqrt (3/2) + 4 * Real.sin b ^ 2 * Real.cos b ^ 2 * Real.sqrt (3/8)) * hp + (8 * Real.sin b ^ 2 * Real.cos b ^ 2 + 2 * Real.sin b ^ 4) * hq + ((3/4 : ℝ) + (9/4 : ℝ) * Real.cos b ^ 2 + (3/4 : ℝ) * Real.sin b ^ 2) * hs
  · linear_combination ((1/2 : ℝ) * Real.sin b * Real.cos b + (-1/2 : ℝ) * Real.sin b * Real.cos b ^ 3) * hp + (-1 * Real.sin b * Real.cos b * Real.sqrt (3/8)) * hs
  · linear_combination (-1 * Real.sin b ^ 2 * Real.cos b ^ 2) * hp + ((1/2 : ℝ) * Real.sin b ^ 2 * Real.sqrt (3/8) + 1 * Real.sin b ^ 2 * Real.cos (b/2) ^ 2 * Real.sqrt (3/8) + (1/2 : ℝ) * Real.sin b ^ 2 * Real.cos b * Real.sqrt (3/8)) * hx + ((1/2 : ℝ) * Real.sin b ^ 2 * Real.sqrt (3/8) + 1 * Real.sin b ^ 2 * Real.sin (b/2) ^ 2 * Real.sqrt (3/8) + (-1/2 : ℝ) * Real.sin b ^ 2 * Real.cos b * Real.sqrt (3/8)) * hy
  · linear_combination (1 * Real.sin b ^ 3 * Real.cos b * Real.sqrt (3/8)) * hp + ((1/4 : ℝ) * Real.sin b + (1/2 : ℝ) * Real.sin b * Real.cos (b/2) ^ 2 + (-1/2 : ℝ) * Real.sin b * Real.cos b * Real.cos (b/2) ^ 2 + (-1/4 : ℝ) * Real.sin b * Real.cos b ^ 2) * hx + ((-1/4 : ℝ) * Real.sin b + (-1/2 : ℝ) * Real.sin b * Real.sin (b/2) ^ 2 + (-1/2 : ℝ) * Real.sin b * Real.cos b * Real.sin (b/2) ^ 2 + (1/4 : ℝ) * Real.sin b * Real.cos b ^ 2) * hy + (2 * Real.sin b ^ 3 * Real.cos b) * hq + ((3/4 : ℝ) * Real.sin b * Real.cos b) * hs
  · linear_combination (-1 * Real.sin b ^ 2 * Real.cos b ^ 2 * Real.sqrt (3/2) + -2 * Real.sin b ^ 2 * Real.cos b ^ 2 * Real.sqrt (3/8)) * hp + (-4 * Real.sin b ^ 2 * Real.cos b ^ 2) * hq + ((1/2 : ℝ) + -2 * Real.cos b ^ 2) * hs
  · linear_combination ((1/2 : ℝ) * Real.sin b * Real.cos b + (-1/2 : ℝ) * Real.sin b * Real.cos b ^ 3) * hp + (-1 * Real.sin b * Real.cos b * Real.sqrt (3/8)) * hs
  · linear_combination (1 * Real.sin b ^ 2 * Real.cos b ^ 2 * Real.sqrt (3/2) + 2 * Real.sin b ^ 2 * Real.cos b ^ 2 * Real.sqrt (3/8)) * hp + (4 * Real.sin b ^ 2 * Real.cos b ^ 2) * hq + ((1/2 : ℝ) + 2 * Real.cos b ^ 2) * hs
  · linear_combination (1 * Real.sin b ^ 3 * Real.cos b * Real.sqrt (3/8)) * hp + ((-1/4 : ℝ) * Real.sin b + (-1/2 : ℝ) * Real.sin b * Real.cos (b/2) ^ 2 + (-1/2 : ℝ) * Real.sin b * Real.cos b + (-1/2 : ℝ) * Real.sin b * Real.cos b * Real.cos (b/2) ^ 2 + (-1/4 : ℝ) * Real.sin b * Real.cos b ^ 2) * hx + ((1/4 : ℝ) * Real.sin b + (1/2 : ℝ) * Real.sin b * Real.sin (b/2) ^ 2 + (-1/2 : ℝ) * Real.sin b * Real.cos b + (-1/2 : ℝ) * Real.sin b * Real.cos b * Real.sin (b/2) ^ 2 + (1/4 : ℝ) * Real.sin b * Real.cos b ^ 2) * hy + (2 * Real.sin b ^ 3 * Real.cos b) * hq + ((3/4 : ℝ) * Real.sin b * Real.cos b) * hs
  · linear_combination (1 * Real.sin (b/2) ^ 4 + 2 * Real.cos (b/2) ^ 2 * Real.sin (b/2) ^ 4 + 1 * Real.cos b * Real.sin (b/2) ^ 4) * hx + ((1/4 : ℝ) + (1/2 : ℝ) * Real.sin (b/2) ^ 2 + (1/4 : ℝ) * Real.cos b + 1 * Real.cos b * Real.sin (b/2) ^ 2 + (-1/4 : ℝ) * Real.cos b ^ 2 + (1/2 : ℝ) * Real.cos b ^ 2 * Real.sin (b/2) ^ 2 + (-1/4 : ℝ) * Real.cos b ^ 3) * hy + (1 * Real.sin b ^ 4) * hq + ((-1/8 : ℝ) + (1/8 : ℝ) * Real.cos b ^ 2 + (3/8 : ℝ) * Real.sin b ^ 2) * hs
  · linear_combination (-1 * Real.sin b ^ 3 * Real.cos b * Real.sqrt (3/8)) * hp + ((-1/4 : ℝ) * Real.sin b + (-1/2 : ℝ) * Real.sin b * Real.cos (b/2) ^ 2 + (1/2 : ℝ) * Real.sin b * Real.cos b * Real.cos (b/2) ^ 2 + (1/4 : ℝ) * Real.sin b * Real.cos b ^ 2) * hx + ((1/4 : ℝ) * Real.sin b + (1/2 : ℝ) * Real.sin b * Real.sin (b/2) ^ 2 + (1/2 : ℝ) * Real.sin b * Real.cos b * Real.sin (b/2) ^ 2 + (-1/4 : ℝ) * Real.sin b * Real.cos b ^ 2) * hy + (-2 * Real.sin b ^ 3 * Real.cos b) * hq + ((-3/4 : ℝ) * Real.sin b * Real.cos b) * hs
  · linear_combination (-1 * Real.sin b ^ 2 * Real.cos b ^ 2) * hp + ((1/2 : ℝ) * Real.sin b ^ 2 * Real.sqrt (3/8) + 1 * Real.sin b ^ 2 * Real.cos (b/2) ^ 2 * Real.sqrt (3/8) + (1/2 : ℝ) * Real.sin b ^ 2 * Real.cos b * Real.sqrt (3/8)) * hx + ((1/2 : ℝ) * Real.sin b ^ 2 * Real.sqrt (3/8) + 1 * Real.sin b ^ 2 * Real.sin (b/2) ^ 2 * Real.sqrt (3/8) + (-1/2 : ℝ) * Real.sin b ^ 2 * Real.cos b * Real.sqrt (3/8)) * hy
  · linear_combination (1 * Real.sin b ^ 3 * Real.cos b * Real.sqrt (3/8)) * hp + ((-1/4 : ℝ) * Real.sin b + (-1/2 : ℝ) * Real.sin b * Real.cos (b/2) ^ 2 + (-1/2 : ℝ) * Real.sin b * Real.cos b + (-1/2 : ℝ) * Real.sin b * Real.cos b * Real.cos (b/2) ^ 2 + (-1/4 : ℝ) * Real.sin b * Real.cos b ^ 2) * hx + ((1/4 : ℝ) * Real.sin b + (1/2 : ℝ) * Real.sin b * Real.sin (b/2) ^ 2 + (-1/2 : ℝ) * Real.sin b * Real.cos b + (-1/2 : ℝ) * Real.sin b * Real.cos b * Real.sin (b/2) ^ 2 + (1/4 : ℝ) * Real.sin b * Real.cos b ^ 2) * hy + (2 * Real.sin b ^ 3 * Real.cos b) * hq + ((3/4 : ℝ) * Real.sin b * Real.cos b) * hs
  · linear_combination ((1/8 : ℝ) + (1/4 : ℝ) * Real.cos (b/2) ^ 2 + (1/2 : ℝ) * Real.cos (b/2) ^ 4 + 1 * Real.cos (b/2) ^ 6 + (3/8 : ℝ) * Real.cos b + (1/2 : ℝ) * Real.cos b * Real.cos (b/2) ^ 2 + (1/2 : ℝ) * Real.cos b * Real.cos (b/2) ^ 4 + (3/8 : ℝ) * Real.cos b ^ 2 + (1/4 : ℝ) * Real.cos b ^ 2 * Real.cos (b/2) ^ 2 + (1/8 : ℝ) * Real.cos b ^ 3) * hx + ((1/8 : ℝ) + (1/4 : ℝ) * Real.sin (b/2) ^ 2 + (1/2 : ℝ) * Real.sin (b/2) ^ 4 + 1 * Real.sin (b/2) ^ 6 + (-3/8 : ℝ) * Real.cos b + (-1/2 : ℝ) * Real.cos b * Real.sin (b/2) ^ 2 + (-1/2 : ℝ) * Real.cos b * Real.sin (b/2) ^ 4 + (3/8 : ℝ) * Real.cos b ^ 2 + (1/4 : ℝ) * Real.cos b ^ 2 * Real.sin (b/2) ^ 2 + (-1/8 : ℝ) * Real.cos b ^ 3) * hy + (1 * Real.sin b ^ 4) * hq + ((7/8 : ℝ) + (1/8 : ℝ) * Real.cos b ^ 2 + (3/8 : ℝ) * Real.sin b ^ 2) * hs


theorem red_wig_zero : red_wig 0 = 1 := by
  ext r c
  fin_cases r <;> fin_cases c <;>
    (simp only [red_wig, Fin.isValue, Fin.reduceFinMk,
      Matrix.cons_val_zero, Matrix.cons_val_one, Matrix.head_cons,
      Matrix.cons_val_two, Matrix.cons_val_three, Matrix.cons_val_four,
      Matrix.tail_cons, Matrix.head_fin_const,
      Matrix.cons_val_fin_one, Matrix.of_apply, Matrix.one_apply,
      Fin.reduceEq, reduceIte]
     norm_num [Real.cos_zero, Real.sin_zero])

theorem red_wig_period (b : ℝ) : red_wig (b + 2*Real.pi) = red_wig b := by
  ext r c
  fin_cases r <;> fin_cases c <;>
    (simp only [red_wig, Fin.isValue, Fin.reduceFinMk,
      Matrix.cons_val_zero, Matrix.cons_val_one, Matrix.head_cons,
      Matrix.cons_val_two, Matrix.cons_val_three, Matrix.cons_val_four,
      Matrix.tail_cons, Matrix.head_fin_const,
      Matrix.cons_val_fin_one, Matrix.of_apply,
      show (b + 2*Real.pi)/2 = b/2 + Real.pi from by ring,
      Real.sin_add_two_pi, Real.cos_add_two_pi, Real.sin_add_pi, Real.cos_add_pi]
     try ring)

theorem exp_neg_mul_exp (w : ℂ) : Complex.exp (-w) * Complex.exp w = 1 := by
  rw [← Complex.exp_add, neg_add_cancel, Complex.exp_zero]

theorem phase_mul (m : ℤ) (x y : ℝ) :
    Complex.exp (-Complex.I * (m : ℂ) * ((x : ℝ) : ℂ)) *
      Complex.exp (-Complex.I * (m : ℂ) * ((y : ℝ) : ℂ)) =
        Complex.exp (-Complex.I * (m : ℂ) * ((x + y : ℝ) : ℂ)) := by
  rw [← Complex.exp_add]
  congr 1
  push_cast
  ring

theorem phase_conj (m : ℤ) (x : ℝ) :
    (starRingEnd ℂ) (Complex.exp (-Complex.I * (m : ℂ) * ((x : ℝ) : ℂ))) =
      Complex.exp (Complex.I * (m : ℂ) * ((x : ℝ) : ℂ)) := by
  rw [← Complex.exp_conj]
  congr 1
  simp

theorem phase_period (m : ℤ) (x : ℝ) :
    Complex.exp (-Complex.I * (m : ℂ) * ((x + 2*Real.pi : ℝ) : ℂ)) =
      Complex.exp (-Complex.I * (m : ℂ) * ((x : ℝ) : ℂ)) := by
  rw [show -Complex.I * (m : ℂ) * ((x + 2*Real.pi : ℝ) : ℂ) =
      -Complex.I * (m : ℂ) * ((x : ℝ) : ℂ) + ((-m : ℤ) : ℂ) * (2 * (Real.pi : ℂ) * Complex.I)
    from by push_cast; ring]
  rw [Complex.exp_add, Complex.exp_int_mul_two_pi_mul_I, mul_one]

/-- Claim C4: for every real euler-angle triplet, the 5x5 Wigner matrix W
returned by generate_wigner satisfies W * conjTranspose W = identity, exactly
over the reals. -/
theorem generate_wigner_unitary (t : ℝ × ℝ × ℝ) :
    generate_wigner t * (generate_wigner t).conjTranspose = 1 := by
  obtain ⟨a, b, g⟩ := t
  ext r c
  rw [Matrix.mul_apply, Matrix.one_apply]
  have key : ∀ k : Fin 5,
      generate_wigner (a, b, g) r k *
        (generate_wigner (a, b, g)).conjTranspose k c =
      (Complex.exp (-Complex.I * ((plus_to_minus_two r : ℤ) : ℂ) * ((a : ℝ) : ℂ)) *
        Complex.exp (Complex.I * ((plus_to_minus_two c : ℤ) : ℂ) * ((a : ℝ) : ℂ))) *
        ((red_wig b r k * red_wig b c k : ℝ) : ℂ) := by
    intro k
    rw [Matrix.conjTranspose_apply]
    simp only [generate_wigner, Matrix.of_apply, Complex.star_def, map_mul,
      phase_conj, Complex.conj_ofReal]
    have hg := exp_neg_mul_exp (Complex.I * ((plus_to_minus_two k : ℤ) : ℂ) * ((g : ℝ) : ℂ))
    push_cast
    rw [show -(Complex.I * ((plus_to_minus_two k : ℤ) : ℂ) * ((g : ℝ) : ℂ)) =
        -Complex.I * ((plus_to_minus_two k : ℤ) : ℂ) * ((g : ℝ) : ℂ) from by ring] at hg
    linear_combination (Complex.exp (-Complex.I * ((plus_to_minus_two r : ℤ) : ℂ) * ((a : ℝ) : ℂ)) *
      Complex.exp (Complex.I * ((plus_to_minus_two c : ℤ) : ℂ) * ((a : ℝ) : ℂ)) *
      ((red_wig b r k : ℝ) : ℂ) * ((red_wig b c k : ℝ) : ℂ)) * hg
  rw [Finset.sum_congr rfl (fun k _ => key k), ← Finset.mul_sum]
  rw [show (Finset.univ.sum fun k => ((red_wig b r k * red_wig b c k : ℝ) : ℂ)) =
      (((Finset.univ.sum fun k => red_wig b r k * red_wig b c k : ℝ)) : ℂ) from by
    push_cast; rfl]
  rw [red_wig_orth b r c]
  by_cases h : r = c
  · subst h
    have h2 := exp_neg_mul_exp (Complex.I * ((plus_to_minus_two r : ℤ) : ℂ) * ((a : ℝ) : ℂ))
    norm_num
    linear_combination h2
  · simp [h]

/-- Claim C6: for every real alpha and gamma, generate_wigner (alpha, 0, gamma)
is the diagonal matrix with entries exp (-i m (alpha + gamma)) for m running
over 2, 1, 0, -1, -2 in that order; in particular generate_wigner (0, 0, 0) is
the 5x5 identity matrix. -/
theorem generate_wigner_beta_zero_diagonal :
    (∀ a g : ℝ, generate_wigner (a, 0, g) =
      Matrix.diagonal (fun m =>
        Complex.exp (-Complex.I * ((plus_to_minus_two m : ℤ) : ℂ) * ((a + g : ℝ) : ℂ)))) ∧
    generate_wigner (0, 0, 0) = 1 := by
  have key : ∀ a g : ℝ, generate_wigner (a, 0, g) =
      Matrix.diagonal (fun m =>
        Complex.exp (-Complex.I * ((plus_to_minus_two m : ℤ) : ℂ) * ((a + g : ℝ) : ℂ))) := by
    intro a g
    ext r c
    simp only [generate_wigner, Matrix.of_apply, red_wig_zero, Matrix.diagonal_apply,
      Matrix.one_apply]
    by_cases h : r = c
    · subst h
      simp only [eq_self_iff_true, if_true, Complex.ofReal_one, mul_one]
      exact phase_mul (plus_to_minus_two r) a g
    · simp [h]
  refine ⟨key, ?_⟩
  rw [key 0 0]
  ext r c
  by_cases h : r = c
  · subst h
    simp [Matrix.diagonal_apply, Matrix.one_apply]
  · simp [Matrix.diagonal_apply, Matrix.one_apply, h]

/-- Claim C10: generate_wigner is 2 pi periodic in each euler angle
separately. -/
theorem generate_wigner_two_pi_periodic (a b g : ℝ) :
    generate_wigner (a + 2*Real.pi, b, g) = generate_wigner (a, b, g) ∧
    generate_wigner (a, b + 2*Real.pi, g) = generate_wigner (a, b, g) ∧
    generate_wigner (a, b, g + 2*Real.pi) = generate_wigner (a, b, g) := by
  refine ⟨?_, ?_, ?_⟩
  · ext r c
    simp only [generate_wigner, Matrix.of_apply]
    rw [phase_period]
  · ext r c
    simp only [generate_wigner, Matrix.of_apply, red_wig_period]
  · ext r c
    simp only [generate_wigner, Matrix.of_apply]
    rw [phase_period]

/-- Claim C5: the raw superoperator construction is linear in the 4x4
Hamiltonian: for all complex 4x4 matrices and complex scalars a and b,
toSuperoperator of the combination a M1 + b M2 is the same combination of the
individual superoperators; in particular toSuperoperator of the zero matrix is
the 16x16 zero matrix. -/
theorem toSuperoperator_linear :
    (∀ (a b : ℂ) (M1 M2 : Fin 4 → Fin 4 → ℂ) (r c : Fin 16),
      toSuperoperator (fun i j => a * M1 i j + b * M2 i j) r c =
        a * toSuperoperator M1 r c + b * toSuperoperator M2 r c) ∧
    ∀ r c : Fin 16, toSuperoperator (fun _ _ => (0:ℂ)) r c = 0 := by
  constructor
  · intro a b M1 M2 r c
    simp only [toSuperoperator, msub, kron4, mtrans, idm4]
    ring
  · intro r c
    simp only [toSuperoperator, msub, kron4, mtrans, idm4]
    ring

/-- Claim C7: buildHamiltonian signals InvalidLabel exactly when an
unrecognized label is supplied, every error it signals is an InvalidLabel
carrying an unrecognized label, no partial Hamiltonian is produced on error
(the result is either an error or a complete matrix), and when all labels are
recognized it returns the coefficient-weighted sum of the corresponding
product operators, unlisted labels defaulting to zero contribution. -/
theorem buildHamiltonian_label_spec (cs : List (String × Q2)) :
    ((∃ e, buildHamiltonian cs = .error e) ↔ ∃ p ∈ cs, opOfLabel p.1 = none) ∧
    (∀ e, buildHamiltonian cs = .error e →
      ∃ l, e = .InvalidLabel l ∧ opOfLabel l = none) ∧
    ((∀ p ∈ cs, (opOfLabel p.1).isSome) → buildHamiltonian cs = .ok (hamSum cs)) := by
  induction cs with
  | nil =>
    refine ⟨?_, ?_, ?_⟩
    · constructor
      · rintro ⟨e, he⟩
        simp [buildHamiltonian] at he
      · rintro ⟨p, hp, _⟩
        cases hp
    · intro e he
      simp [buildHamiltonian] at he
    · intro _
      rfl
  | cons hd tl ih =>
    obtain ⟨l, c⟩ := hd
    cases hop : opOfLabel l with
    | none =>
      refine ⟨?_, ?_, ?_⟩
      · constructor
        · intro _
          exact ⟨(l, c), List.mem_cons_self _ _, hop⟩
        · intro _
          exact ⟨.InvalidLabel l, by simp [buildHamiltonian, hop]⟩
      · intro e he
        simp only [buildHamiltonian, hop] at he
        exact ⟨l, by injection he with h; exact h.symm ▸ rfl, hop⟩
      · intro hall
        have h1 := hall (l, c) (List.mem_cons_self _ _)
        simp [hop] at h1
    | some P =>
      cases hrec : buildHamiltonian tl with
      | error e =>
        have htl : ∃ p ∈ tl, opOfLabel p.1 = none := ih.1.1 ⟨e, hrec⟩
        refine ⟨?_, ?_, ?_⟩
        · constructor
          · intro _
            obtain ⟨p, hp, hpn⟩ := htl
            exact ⟨p, List.mem_cons_of_mem _ hp, hpn⟩
          · intro _
            exact ⟨e, by simp [buildHamiltonian, hop, hrec]⟩
        · intro e2 he2
          simp only [buildHamiltonian, hop, hrec] at he2
          injection he2 with h
          exact h ▸ ih.2.1 e hrec
        · intro hall
          have htlall : ∀ p ∈ tl, (opOfLabel p.1).isSome :=
            fun p hp => hall p (List.mem_cons_of_mem _ hp)
          have := ih.2.2 htlall
          rw [this] at hrec
          cases hrec
      | ok M =>
        have hnone : ¬ ∃ p ∈ tl, opOfLabel p.1 = none := by
          intro hex
          obtain ⟨e, he⟩ := ih.1.2 hex
          rw [he] at hrec
          cases hrec
        refine ⟨?_, ?_, ?_⟩
        · constructor
          · rintro ⟨e, he⟩
            simp only [buildHamiltonian, hop, hrec] at he
            cases he
          · rintro ⟨p, hp, hpn⟩
            rcases List.mem_cons.1 hp with h | h
            · subst h
              rw [hpn] at hop
              cases hop
            · exact absurd ⟨p, h, hpn⟩ hnone
        · intro e he
          simp only [buildHamiltonian, hop, hrec] at he
          cases he
        · intro hall
          have htlall : ∀ p ∈ tl, (opOfLabel p.1).isSome :=
            fun p hp => hall p (List.mem_cons_of_mem _ hp)
          have hok := ih.2.2 htlall
          have hM : hamSum tl = M := by
            rw [hok] at hrec
            injection hrec
          simp only [buildHamiltonian, hop, hrec, hamSum, Option.getD_some, hM]

theorem buildHamiltonian_label_spec_witness :
    buildHamiltonian [("Iz", ⟨1, 1⟩)] = .ok (hamSum [("Iz", ⟨1, 1⟩)]) :=
  (buildHamiltonian_label_spec [("Iz", ⟨1, 1⟩)]).2.2 (by decide)


theorem E_is_idm4 : ∀ i j : Fin 4, E i j = (idm4 : Fin 4 → Fin 4 → CQ) i j := by decide

theorem Hs_is_toSuperoperator : Hs = toSuperoperator H := by
  unfold Hs toSuperoperator
  rw [show (idm4 : Fin 4 → Fin 4 → CQ) = E from
    (funext fun i => funext fun j => E_is_idm4 i j).symm]

/-- Claim C1: every entry (r, c) of the projected superoperator equals the dot
product of basis vector r with the raw superoperator applied to the transpose
of basis vector c, divided by the self-dot-product of basis vector r, where
the 16 basis vectors are the row-major flattenings of the product operators
taken in exactly the fixed order half E, Ix, Iy, Iz, Sx, Sy, Sz, IxSz, IySz,
IzSx, IzSy, IxSx, IxSy, IySx, IySy, IzSz, with only the identity vector scaled
by one half. -/
theorem Hsp_entry_projection_formula : ∀ r c : Fin 16,
    Hsp r c =
      dot (![vsm half vE, vIx, vIy, vIz, vSx, vSy, vSz, vIxSz, vIySz,
             vIzSx, vIzSy, vIxSx, vIxSy, vIySx, vIySy, vIzSz] r)
          (matVec Hs
            (![vsm half vE, vIx, vIy, vIz, vSx, vSy, vSz, vIxSz, vIySz,
               vIzSx, vIzSy, vIxSx, vIxSy, vIySx, vIySy, vIzSz] c)) /
        dot (![vsm half vE, vIx, vIy, vIz, vSx, vSy, vSz, vIxSz, vIySz,
               vIzSx, vIzSy, vIxSx, vIxSy, vIySx, vIySy, vIzSz] r)
            (![vsm half vE, vIx, vIy, vIz, vSx, vSy, vSz, vIxSz, vIySz,
               vIzSx, vIzSy, vIxSx, vIxSy, vIySx, vIySy, vIzSz] r) :=
  fun r c => hsp_fill r c

/-- Claim C2: for the reference coefficient set baked into the script, every
entry of the projected 16x16 superoperator has real part exactly zero. -/
theorem Hsp_real_part_zero : ∀ r c : Fin 16, (CQ.val (Hsp r c)).re = 0 := by
  intro r c
  rw [hsp_fill r c, vop_eval, Hs_eval, mv_eval c, dd_entries r]
  exact CQ.val_re_zero _ (hsp_re_num r c)

/-- Claim C9: every diagonal entry of the projected superoperator computed
from the reference Hamiltonian is exactly zero, real and imaginary part. -/
theorem Hsp_diagonal_zero : ∀ r : Fin 16, CQ.val (Hsp r r) = 0 := by
  intro r
  rw [hsp_fill r r, vop_eval, Hs_eval, mv_eval r, dd_entries r]
  exact CQ.val_zero _ (hsp_diag_num r).1 (hsp_diag_num r).2

/-- Claim C8: for every row index, the self-dot-product of the corresponding
basis vector (the identity vector being scaled by one half) is nonzero, so
the division in every projected-superoperator entry is well defined. -/
theorem vector_selfdot_ne_zero : ∀ r : Fin 16,
    CQ.val (dot (vector_operators r) (vector_operators r)) ≠ 0 := by
  intro r
  rw [vop_eval, dd_entries r]
  exact CQ.val_ne_zero_of_re _ (dd_facts r).1 (dd_facts r).2

theorem vector_selfdot_ne_zero_witness :
    CQ.val (dot (vector_operators 0) (vector_operators 0)) ≠ 0 :=
  vector_selfdot_ne_zero 0

/-- Claim C3 counterexample: the product operator at position 3 of the fixed
order (the operator Iz) has squared norm 1 rather than 4 under the trace
inner product, refuting the claim that every one of the 16 product operators
has squared norm 4. -/
theorem prodOps_norm_counterexample :
    CQ.val (traceInner (prodOps 3) (prodOps 3)) ≠ 4 := by
  rw [traceInner_eval 3 3]
  rw [CQ.val_intCast (tiF 3 3) 1 (by decide) (by decide) (by decide)]
  norm_num

/-- Claim C3 (amended): the 16 product operators are pairwise orthogonal under
the trace inner product (the sum of elementwise products of one matrix and the
transpose of the other is 0 for every distinct pair), and the squared norm
under that inner product is 4 for the identity operator and 1 for each of the
other fifteen. -/
theorem prodOps_orthogonal_norms : ∀ a b : Fin 16,
    (a ≠ b → CQ.val (traceInner (prodOps a) (prodOps b)) = 0) ∧
    CQ.val (traceInner (prodOps a) (prodOps a)) =
      (((if a = 0 then 4 else 1) : ℤ) : ℂ) := by
  intro a b
  constructor
  · intro hab
    rw [traceInner_eval a b]
    exact CQ.val_zero _ (ti_offdiag a b hab).1 (ti_offdiag a b hab).2
  · rw [traceInner_eval a a]
    exact CQ.val_intCast (tiF a a) (if a = 0 then 4 else 1)
      (ti_diag a).1 (ti_diag a).2.1 (ti_diag a).2.2

theorem prodOps_orthogonal_norms_witness :
    CQ.val (traceInner (prodOps 1) (prodOps 2)) = 0 ∧
    CQ.val (traceInner (prodOps 1) (prodOps 1)) =
      (((if (1 : Fin 16) = 0 then 4 else 1) : ℤ) : ℂ) :=
  ⟨(prodOps_orthogonal_norms 1 2).1 (by decide), (prodOps_orthogonal_norms 1 2).2⟩
